import Mathlib

/-!
Verification of the relationship-graph import/export pipeline.

This file gives a shallow embedding of the repository:
  - `table_create_statements.py` : the relational schema (four tables with
    their uniqueness constraints and AUTOINCREMENT surrogate keys);
  - `insert_cprt_data.py` : the import pipeline (`insert_documents`,
    `insert_elements`, `insert_relationship_types`, `insert_relationships`,
    and the per-file batch loop of `main`);
  - `excel_processor.py` : `detect_excel_file_type`;
  - `enhance_mappings.py` : `MappingEnhancer.lookup_element_text` and
    `MappingEnhancer.enhance_mapping_file`;
  - `main.py` : `create_provenance_document` and `export_relationships`.

Spreadsheet rows are modelled as association lists from column name to cell
value, matching the dict-of-records shape produced by the pandas readers
after `fillna('')` (every cell is a string, a missing column is a missing
key).  SQLite tables are modelled as lists of records kept in insertion
order, with AUTOINCREMENT ids handed out from a counter; `INSERT OR IGNORE`
is modelled by an explicit duplicate check against the table's UNIQUE
constraint.  Python dict construction with overwriting assignment is
modelled by searching the reversed list (last binding wins).  A Python
truthiness test on a looked-up surrogate id (`if not document_id`) is
modelled by returning `0` for a failed lookup: ids handed out by the store
start at 1, and both `None` and `0` are falsy in Python, so the sentinel `0`
reproduces the source behaviour exactly.
-/

/-- A spreadsheet row: column name to cell value, as produced by
`df.fillna('').to_dict('records')`. -/
abbrev Row := List (String × String)

/-- `row.get(key, dflt)` on a Python dict. -/
def rget (row : Row) (key dflt : String) : String :=
  match row.lookup key with
  | some v => v
  | none => dflt

/-- A row of the `documents` table (`table_create_statements.py`). -/
structure DocumentRec where
  document_id : Nat
  doc_identifier : String
  name : String
  version : String
  website : String
  type : String
deriving DecidableEq, Repr

/-- A row of the `elements` table. -/
structure ElementRec where
  element_id : Nat
  document_id : Nat
  element_type : String
  element_identifier : String
  title : String
  text : String
deriving DecidableEq, Repr

/-- A row of the `relationship_types` table. -/
structure RelTypeRec where
  type_id : Nat
  relationship_identifier : String
  description : String
  value : String
deriving DecidableEq, Repr

/-- A row of the `relationships` table. -/
structure RelationshipRec where
  source_id : Nat
  dest_id : Nat
  prov_doc_id : Nat
  relationship_type : Nat
  comment : String
deriving DecidableEq, Repr

/-- The SQLite store `graph.db`: the four tables in insertion order plus the
AUTOINCREMENT counters (ids start at 1, as in SQLite). -/
structure Store where
  documents : List DocumentRec
  elements : List ElementRec
  relationship_types : List RelTypeRec
  relationships : List RelationshipRec
  nextDocId : Nat
  nextElemId : Nat
  nextTypeId : Nat
deriving DecidableEq, Repr

def emptyStore : Store := ⟨[], [], [], [], 1, 1, 1⟩

/-! ### INSERT OR IGNORE operations

Each mirrors the corresponding UNIQUE constraint from
`table_create_statements.py`. -/

/-- `INSERT OR IGNORE INTO documents ...` — UNIQUE(doc_identifier). -/
def docInsertOrIgnore (st : Store) (ident name version website ty : String) : Store :=
  if st.documents.any (fun d => d.doc_identifier == ident) then st
  else { st with
          documents := st.documents ++ [⟨st.nextDocId, ident, name, version, website, ty⟩],
          nextDocId := st.nextDocId + 1 }

/-- `INSERT OR IGNORE INTO elements ...` —
UNIQUE(document_id, element_identifier, title, text). -/
def elemInsertOrIgnore (st : Store) (docId : Nat) (ty ident title text : String) : Store :=
  if st.elements.any (fun e =>
      e.document_id == docId && e.element_identifier == ident &&
      e.title == title && e.text == text) then st
  else { st with
          elements := st.elements ++ [⟨st.nextElemId, docId, ty, ident, title, text⟩],
          nextElemId := st.nextElemId + 1 }

/-- `INSERT OR IGNORE INTO relationship_types ...` —
UNIQUE(relationship_identifier). -/
def typeInsertOrIgnore (st : Store) (ident description value : String) : Store :=
  if st.relationship_types.any (fun t => t.relationship_identifier == ident) then st
  else { st with
          relationship_types := st.relationship_types ++ [⟨st.nextTypeId, ident, description, value⟩],
          nextTypeId := st.nextTypeId + 1 }

/-- `INSERT OR IGNORE INTO relationships ...` —
UNIQUE(source_id, dest_id, prov_doc_id, relationship_type). -/
def relInsertOrIgnore (st : Store) (s d p t : Nat) (comment : String) : Store :=
  if st.relationships.any (fun r =>
      r.source_id == s && r.dest_id == d && r.prov_doc_id == p &&
      r.relationship_type == t) then st
  else { st with relationships := st.relationships ++ [⟨s, d, p, t, comment⟩] }

/-! ### Identifier maps

`insert_elements` and `insert_relationships` build Python dicts mapping
human identifiers to surrogate ids.  Dict assignment overwrites, so on a
duplicate key the last row scanned wins: we model the dict lookup by
searching the reversed table.  A failed lookup yields the sentinel `0`
(Python `None`), which is exactly what the truthiness tests reject. -/

/-- `doc_id_map = {row['doc_identifier']: row['document_id'] ...}` lookup. -/
def docIdMapN (st : Store) (k : String) : Nat :=
  match st.documents.reverse.find? (fun d => d.doc_identifier == k) with
  | some d => d.document_id
  | none => 0

/-- The rows of `SELECT e.element_id, e.element_identifier, d.doc_identifier
FROM elements e JOIN documents d ON e.document_id = d.document_id`:
one `(doc_identifier, element_identifier, element_id)` triple per element
whose owning document exists. -/
def elemJoin (st : Store) : List (String × String × Nat) :=
  st.elements.filterMap (fun e =>
    (st.documents.find? (fun d => d.document_id == e.document_id)).map
      (fun d => (d.doc_identifier, e.element_identifier, e.element_id)))

/-- `element_id_map[(doc_identifier, element_identifier)]` lookup. -/
def elementIdMapN (st : Store) (dk ek : String) : Nat :=
  match (elemJoin st).reverse.find? (fun t => t.1 == dk && t.2.1 == ek) with
  | some t => t.2.2
  | none => 0

/-- `rel_type_id_map[relationship_identifier]` lookup. -/
def relTypeIdMapN (st : Store) (k : String) : Nat :=
  match st.relationship_types.reverse.find? (fun t => t.relationship_identifier == k) with
  | some t => t.type_id
  | none => 0

/-! ### The four insert steps of `insert_cprt_data.py`

Each returns the `insert_count` reported by the source function together
with the updated store.  Note that the source increments `insert_count`
for every row handed to `conn.execute`, whether or not the
`INSERT OR IGNORE` actually created a row. -/

/-- The loop body of `insert_documents`: schema mapping plus the insert,
with `insert_count` incremented unconditionally. -/
def insDocStep (acc : Nat × Store) (row : Row) : Nat × Store :=
  let name := rget row "title" (rget row "name" "")
  let ident := rget row "document_identifier" ""
  let version := rget row "version" "1.0"
  let website := rget row "website" ""
  let ty := rget row "type" "unknown"
  (acc.1 + 1, docInsertOrIgnore acc.2 ident name version website ty)

/-- `insert_documents(conn, documents)`. -/
def insertDocuments (st : Store) (rows : List Row) : Nat × Store :=
  rows.foldl insDocStep (0, st)

/-- The loop body of `insert_elements`, over the document map `dm` fixed at
function entry: a row whose document does not resolve is skipped. -/
def insElemStep (dm : String → Nat) (acc : Nat × Store) (row : Row) : Nat × Store :=
  let docId := dm (rget row "document_identifier" "")
  if docId == 0 then acc
  else
    let ty := rget row "type" (rget row "element_type" "unknown")
    let ident := rget row "element_identifier" ""
    let title0 := rget row "title" "N/A"
    let title := if title0 == "" then "N/A" else title0
    let text := rget row "text" ""
    (acc.1 + 1, elemInsertOrIgnore acc.2 docId ty ident title text)

/-- `insert_elements(conn, elements)`. -/
def insertElements (st : Store) (rows : List Row) : Nat × Store :=
  rows.foldl (insElemStep (docIdMapN st)) (0, st)

/-- The loop body of `insert_relationship_types`. -/
def insTypeStep (acc : Nat × Store) (row : Row) : Nat × Store :=
  let ident := rget row "relationship_identifier" ""
  let description := rget row "description" ""
  let value := rget row "value" ""
  (acc.1 + 1, typeInsertOrIgnore acc.2 ident description value)

/-- `insert_relationship_types(conn, relationship_types)`. -/
def insertRelationshipTypes (st : Store) (rows : List Row) : Nat × Store :=
  rows.foldl insTypeStep (0, st)

/-- The diagnostic parts built by `insert_relationships` for a row with
unresolved references, in source order. -/
def missingList (dm : String → Nat) (em : String → String → Nat) (tm : String → Nat)
    (row : Row) : List String :=
  let sdoc := rget row "source_doc_identifier" ""
  let selem := rget row "source_element_identifier" ""
  let ddoc := rget row "dest_doc_identifier" ""
  let delem := rget row "dest_element_identifier" ""
  let pdoc := rget row "provenance_doc_identifier" ""
  let rty := rget row "relationship_identifier" ""
  (if em sdoc selem == 0 then ["source (" ++ sdoc ++ ", " ++ selem ++ ")"] else []) ++
  (if em ddoc delem == 0 then ["dest (" ++ ddoc ++ ", " ++ delem ++ ")"] else []) ++
  (if dm pdoc == 0 then ["provenance doc (" ++ pdoc ++ ")"] else []) ++
  (if tm rty == 0 then ["relationship type (" ++ rty ++ ")"] else [])

/-- The per-row loop of `insert_relationships`: the three maps are fixed at
function entry; a row with any unresolved reference is skipped with a
diagnostic, otherwise the row is inserted (or ignored) and counted. -/
def insertRelGo (dm : String → Nat) (em : String → String → Nat) (tm : String → Nat)
    (st : Store) (cnt : Nat) (diags : List (List String)) :
    List Row → Nat × Store × List (List String)
  | [] => (cnt, st, diags)
  | row :: rest =>
    let sdoc := rget row "source_doc_identifier" ""
    let selem := rget row "source_element_identifier" ""
    let ddoc := rget row "dest_doc_identifier" ""
    let delem := rget row "dest_element_identifier" ""
    let pdoc := rget row "provenance_doc_identifier" ""
    let rty := rget row "relationship_identifier" ""
    let comment := rget row "comment" ""
    let sourceId := em sdoc selem
    let destId := em ddoc delem
    let provId := dm pdoc
    let relTypeId := tm rty
    if sourceId == 0 || destId == 0 || provId == 0 || relTypeId == 0 then
      insertRelGo dm em tm st cnt (diags ++ [missingList dm em tm row]) rest
    else
      insertRelGo dm em tm (relInsertOrIgnore st sourceId destId provId relTypeId comment)
        (cnt + 1) diags rest

/-- `insert_relationships(conn, relationships)`: returns the reported count,
the updated store and the skip diagnostics. -/
def insertRelationships (st : Store) (rows : List Row) : Nat × Store × List (List String) :=
  insertRelGo (docIdMapN st) (elementIdMapN st) (relTypeIdMapN st) st 0 [] rows

/-! ### The per-file pipeline and the batch loop of `main` -/

/-- The four buckets produced by `process_cprt_file` for one source file. -/
structure Bundle where
  documents : List Row
  elements : List Row
  relationship_types : List Row
  relationships : List Row
deriving Repr

/-- The per-entity-type counts reported by one run. -/
structure Totals where
  documents : Nat
  elements : Nat
  relationship_types : Nat
  relationships : Nat
deriving DecidableEq, Repr

def addTotals (a b : Totals) : Totals :=
  ⟨a.documents + b.documents, a.elements + b.elements,
   a.relationship_types + b.relationship_types, a.relationships + b.relationships⟩

structure ImportResult where
  totals : Totals
  store : Store
  diags : List (List String)
deriving Repr

/-- The insert sequence for one file inside its transaction:
documents, then elements, then relationship types, then relationships. -/
def runImportFile (b : Bundle) (st : Store) : ImportResult :=
  let r1 := insertDocuments st b.documents
  let r2 := insertElements r1.2 b.elements
  let r3 := insertRelationshipTypes r2.2 b.relationship_types
  let r4 := insertRelationships r3.2 b.relationships
  ⟨⟨r1.1, r2.1, r3.1, r4.1⟩, r4.2.1, r4.2.2⟩

/-- Processing one file in `main`: anything that raises between `BEGIN
TRANSACTION` and `conn.commit()` triggers `conn.rollback()`, which restores
the committed state regardless of any pending writes.  A file is therefore
modelled as an arbitrary computation from the committed store that either
commits a new store together with its counts or fails. -/
def processBatch (files : List (Store → Except String (Totals × Store)))
    (st : Store) (tot : Totals) : Store × Totals :=
  match files with
  | [] => (st, tot)
  | f :: rest =>
    match f st with
    | .ok (c, st2) => processBatch rest st2 (addTotals tot c)
    | .error _ => processBatch rest st tot

/-- A readable file is processed by the insert pipeline; an unreadable one
(`process_cprt_file` raising) fails the transaction. -/
def importFileProc (file : Except String Bundle) : Store → Except String (Totals × Store) :=
  fun st =>
    match file with
    | .error e => .error e
    | .ok b =>
      let r := runImportFile b st
      .ok (r.totals, r.store)

/-! ### Sorting (SQL ORDER BY)

A generic insertion sort over a boolean comparator, used to model the
`ORDER BY` clauses of the export queries. -/

def insSorted (le : A → A → Bool) (a : A) : List A → List A
  | [] => [a]
  | b :: l => if le a b then a :: b :: l else b :: insSorted le a l

def insSort (le : A → A → Bool) : List A → List A
  | [] => []
  | a :: l => insSorted le a (insSort le l)

/-! ### `export_relationships` (`main.py`)

The base query joins each relationship back to its source element and
document, destination element and document, provenance document and
relationship type; a relationship any of whose referents is missing
produces no row (inner join).  The optional provenance filter keeps rows
whose provenance document identifier is in the requested list, and the
result is ordered by (source document identifier, source element
identifier). -/

structure ExportRow where
  source_element_identifier : String
  source_doc_identifier : String
  dest_element_identifier : String
  dest_doc_identifier : String
  provenance_doc_identifier : String
  relationship_identifier : String
  comment : String
  source_element_id : Nat
  dest_element_id : Nat
deriving DecidableEq, Repr

/-- One row of the export join for one stored relationship, if all six
referents resolve. -/
def joinRel (st : Store) (r : RelationshipRec) : Option ExportRow :=
  (st.elements.find? (fun e => e.element_id == r.source_id)).bind fun se =>
  (st.documents.find? (fun d => d.document_id == se.document_id)).bind fun sd =>
  (st.elements.find? (fun e => e.element_id == r.dest_id)).bind fun de =>
  (st.documents.find? (fun d => d.document_id == de.document_id)).bind fun dd =>
  (st.documents.find? (fun d => d.document_id == r.prov_doc_id)).bind fun pd =>
  (st.relationship_types.find? (fun t => t.type_id == r.relationship_type)).map fun rt =>
    ⟨se.element_identifier, sd.doc_identifier, de.element_identifier, dd.doc_identifier,
     pd.doc_identifier, rt.relationship_identifier, r.comment, se.element_id, de.element_id⟩

def exportJoinRows (st : Store) : List ExportRow :=
  st.relationships.filterMap (joinRel st)

/-- The provenance filter: applied only when the stripped identifier list is
nonempty, as in the source (`if prov_doc_list:`). -/
def exportFilteredRows (st : Store) (provList : List String) : List ExportRow :=
  if provList.isEmpty then exportJoinRows st
  else (exportJoinRows st).filter (fun r => provList.contains r.provenance_doc_identifier)

/-- `ORDER BY sd.doc_identifier, se.element_identifier`. -/
def exportKeyLE (a b : ExportRow) : Bool :=
  if a.source_doc_identifier = b.source_doc_identifier then
    decide (a.source_element_identifier ≤ b.source_element_identifier)
  else decide (a.source_doc_identifier ≤ b.source_doc_identifier)

def exportSortedRows (st : Store) (provList : List String) : List ExportRow :=
  insSort exportKeyLE (exportFilteredRows st provList)

/-- The documents sheet of the export bundle: the stored documents whose
identifier occurs as a source or destination document of some filtered
relationship (`mapped_documents` in the source; the provenance documents
are not collected), ordered by identifier. -/
def documentsSheetRecs (st : Store) (provList : List String) : List DocumentRec :=
  insSort (fun a b => decide (a.doc_identifier ≤ b.doc_identifier))
    (st.documents.filter (fun d =>
      (exportFilteredRows st provList).any (fun r =>
        r.source_doc_identifier == d.doc_identifier ||
        r.dest_doc_identifier == d.doc_identifier)))

/-- The elements sheet: the stored elements referenced as source or
destination of some filtered relationship, joined to their document,
ordered by (document identifier, element identifier). -/
def elementsSheetRecs (st : Store) (provList : List String) : List (DocumentRec × ElementRec) :=
  insSort (fun a b =>
      if a.1.doc_identifier = b.1.doc_identifier then
        decide (a.2.element_identifier ≤ b.2.element_identifier)
      else decide (a.1.doc_identifier ≤ b.1.doc_identifier))
    (st.elements.filterMap (fun e =>
      if (exportFilteredRows st provList).any (fun r =>
          r.source_element_id == e.element_id || r.dest_element_id == e.element_id) then
        (st.documents.find? (fun d => d.document_id == e.document_id)).map (fun d => (d, e))
      else none))

/-- The relationship_types sheet: the stored types whose identifier is used
by some filtered relationship, ordered by identifier.  Only
`relationship_identifier` and `description` are selected. -/
def typesSheetRecs (st : Store) (provList : List String) : List RelTypeRec :=
  insSort (fun a b => decide (a.relationship_identifier ≤ b.relationship_identifier))
    (st.relationship_types.filter (fun t =>
      (exportFilteredRows st provList).any (fun r =>
        r.relationship_identifier == t.relationship_identifier)))

/-! Rowification: the column names each sheet is written with
(`to_excel` writes the dataframe columns; reading the bundle back through
`process_cprt_file` yields dict records under exactly these names). -/

def docRecToRow (d : DocumentRec) : Row :=
  [("doc_identifier", d.doc_identifier), ("name", d.name), ("version", d.version),
   ("website", d.website), ("type", d.type)]

def elemRecToRow (p : DocumentRec × ElementRec) : Row :=
  [("doc_identifier", p.1.doc_identifier), ("element_type", p.2.element_type),
   ("element_identifier", p.2.element_identifier), ("title", p.2.title), ("text", p.2.text)]

def typeRecToRow (t : RelTypeRec) : Row :=
  [("relationship_identifier", t.relationship_identifier), ("description", t.description)]

/-- The relationships sheet drops the two internal id columns before
serialization. -/
def relRecToRow (r : ExportRow) : Row :=
  [("source_element_identifier", r.source_element_identifier),
   ("source_doc_identifier", r.source_doc_identifier),
   ("dest_element_identifier", r.dest_element_identifier),
   ("dest_doc_identifier", r.dest_doc_identifier),
   ("provenance_doc_identifier", r.provenance_doc_identifier),
   ("relationship_identifier", r.relationship_identifier),
   ("comment", r.comment)]

/-- The four-sheet bundle written by the excel branch of
`export_relationships`, as the import pipeline would read it back. -/
def exportBundle (st : Store) (provList : List String) : Bundle :=
  ⟨(documentsSheetRecs st provList).map docRecToRow,
   (elementsSheetRecs st provList).map elemRecToRow,
   (typesSheetRecs st provList).map typeRecToRow,
   (exportSortedRows st provList).map relRecToRow⟩

/-! ### `detect_excel_file_type` (`excel_processor.py`) -/

/-- A spreadsheet as the detector sees it: the sheet names with the raw
column headers of each sheet. -/
structure ExcelFileModel where
  sheets : List (String × List String)
deriving Repr

/-- Leading and trailing whitespace removal (`str.strip()`). -/
def trimChars (l : List Char) : List Char :=
  ((l.dropWhile Char.isWhitespace).reverse.dropWhile Char.isWhitespace).reverse

/-- Header cleaning: `col.replace('\n', ' ').strip()` — the pattern is a
single character, so the replacement is a character map. -/
def cleanHeader (s : String) : String :=
  String.mk (trimChars (s.data.map (fun c => if c = '\n' then ' ' else c)))

def cleanCols (cols : List String) : List String :=
  cols.map cleanHeader

def baselineCol : String := "Security Control Baseline"

def csfExpectedCols : List String :=
  ["Focal Document Element", "Focal Document Element Description",
   "Reference Document Element"]

/-- The unrecognized-format message, including the wrapping applied by the
outer `except` clause which re-raises every error as
`ValueError(f"Error detecting file type for {file_path}: {str(e)}")`. -/
def detectErrorMsg (path : String) (numSheets : Nat) (columns : List String) : String :=
  "Error detecting file type for " ++ path ++ ": Cannot determine file type for " ++
    path ++ ". Sheets: " ++ toString numSheets ++ ", Columns: " ++ toString columns

/-- `detect_excel_file_type(file_path)` on a workbook with at least one
sheet (the xlsx container cannot hold zero sheets). -/
def detectExcelFileType (path : String) (first : String × List String)
    (rest : List (String × List String)) : Except String String :=
  if 1 + rest.length > 1 ∧ baselineCol ∈ cleanCols first.2 then .ok "sp800-53"
  else if 1 + rest.length = 1 ∧ baselineCol ∉ cleanCols first.2 ∧
      (∀ c ∈ csfExpectedCols, c ∈ cleanCols first.2) then
    .ok "csf"
  else .error (detectErrorMsg path (1 + rest.length) (cleanCols first.2))

/-! ### `MappingEnhancer.lookup_element_text` (`enhance_mappings.py`) -/

structure ElementData where
  title : String
  text : String
deriving DecidableEq, Repr

/-- The processwide cache `self.element_cache`, keyed by the composite
string `f"{document_id}::{element_id}"`. -/
abbrev ElemCache := List (String × ElementData)

/-- The `fetchone` of the lookup query: the first element of the given
document matching the identifier pair. -/
def elemLookupFind (st : Store) (dk ek : String) : Option ElementRec :=
  st.elements.find? (fun e =>
    match st.documents.find? (fun d => d.document_id == e.document_id) with
    | some d => d.doc_identifier == dk && e.element_identifier == ek
    | none => false)

/-- `lookup_element_text(document_id, element_id)`: returns the result and
the updated cache; never fails. -/
def lookupElementText (st : Store) (cache : ElemCache) (dk ek : String) :
    ElementData × ElemCache :=
  match cache.lookup (dk ++ "::" ++ ek) with
  | some v => (v, cache)
  | none =>
    match elemLookupFind st dk ek with
    | some e =>
      (⟨if e.title == "" then "N/A" else e.title, e.text⟩,
       cache ++ [(dk ++ "::" ++ ek, ⟨if e.title == "" then "N/A" else e.title, e.text⟩)])
    | none =>
      (⟨"Element not found", "Could not locate element " ++ ek ++ " in document " ++ dk⟩,
       cache ++ [(dk ++ "::" ++ ek,
         ⟨"Element not found", "Could not locate element " ++ ek ++ " in document " ++ dk⟩)])

/-! ### `create_provenance_document` (`main.py`) -/

/-- An API error: HTTP status code and detail message.  The 500 case models
the uncaught `sqlite3.IntegrityError` raised by the plain `INSERT` when the
generated identifier already exists; in both error cases the handler
returns before `conn.commit()`, so nothing is written. -/
def provIdent (target source ts : String) : String :=
  "MAPPING_" ++ target ++ "_TO_" ++ source ++ "_" ++ ts

def createProvenanceDocument (st : Store) (target source ts : String) :
    Except (Nat × String) (Store × String × String) :=
  match st.documents.find? (fun d => d.doc_identifier == target),
        st.documents.find? (fun d => d.doc_identifier == source) with
  | some td, some sd =>
    if st.documents.any (fun d => d.doc_identifier == provIdent target source ts) then
      .error (500, "UNIQUE constraint failed: documents.doc_identifier")
    else
      .ok ({ st with
              documents := st.documents ++
                [⟨st.nextDocId, provIdent target source ts,
                  "Mapping: " ++ td.name ++ " to " ++ sd.name, "1.0",
                  "Generated by Document Relationship Mapper", "mapping_document"⟩],
              nextDocId := st.nextDocId + 1 },
            provIdent target source ts, "Mapping: " ++ td.name ++ " to " ++ sd.name)
  | _, _ => .error (400, "Target or source document not found")

/-! ### `MappingEnhancer.enhance_mapping_file` (`enhance_mappings.py`) -/

/-- A dataframe as read from one sheet: column headers plus one association
list per row. -/
structure DataFrame where
  columns : List String
  rows : List Row
deriving DecidableEq, Repr

def enhanceRequiredColumns : List String :=
  ["source_element", "source_document", "dest_element", "dest_document"]

/-- The lookup loop: one (source text, dest text) pair per row, threading
the cache through consecutive `lookup_element_text` calls. -/
def enhanceLookupTexts (st : Store) (cache : ElemCache) :
    List Row → List (String × String) × ElemCache
  | [] => ([], cache)
  | row :: rest =>
    let s := lookupElementText st cache (rget row "source_document" "") (rget row "source_element" "")
    let d := lookupElementText st s.2 (rget row "dest_document" "") (rget row "dest_element" "")
    let r := enhanceLookupTexts st d.2 rest
    ((s.1.text, d.1.text) :: r.1, r.2)

/-- Column insertion at a position (`df.insert`). -/
def insertColAt (cols : List String) (i : Nat) (c : String) : List String :=
  cols.take i ++ [c] ++ cols.drop i

/-- `df.columns.get_loc(c)` for a unique column index: the position of the
first matching column, `none` modelling the raised `KeyError`. -/
def getLoc (cols : List String) (c : String) : Option Nat :=
  match cols with
  | [] => none
  | x :: l => if x == c then some 0 else (getLoc l c).map (· + 1)

/-- `enhance_mapping_file(file_path)`: `some` carries the enhanced
dataframe written to the timestamped sibling file; `none` is the failure
sentinel (no file written).  The `df.columns.get_loc('dest_title')` call
raises `KeyError` when the column is absent; the surrounding `except`
catches it and returns `None`. -/
def enhanceMappingFile (st : Store) (cache : ElemCache)
    (sheets : List (String × DataFrame)) : Option DataFrame :=
  match sheets.lookup "Relationships" with
  | none => none
  | some df =>
    if !(enhanceRequiredColumns.filter (fun c => !(df.columns.contains c))).isEmpty then none
    else
      match getLoc df.columns "dest_title" with
      | none => none
      | some i =>
        some ⟨insertColAt (insertColAt df.columns (i + 1) "source_text") (i + 2) "dest_text",
          (df.rows.zip (enhanceLookupTexts st cache df.rows).1).map (fun p =>
            p.1 ++ [("source_text", p.2.1), ("dest_text", p.2.2)])⟩

/-! ## Helper lemmas -/

theorem mem_insSorted (le : A → A → Bool) (a x : A) (l : List A) :
    x ∈ insSorted le a l ↔ x = a ∨ x ∈ l := by
  induction l with
  | nil => simp [insSorted]
  | cons b l ih =>
    by_cases h : le a b = true
    · simp [insSorted, h]
    · simp only [insSorted, h, if_neg, Bool.not_eq_true] at *
      simp [List.mem_cons, ih]
      tauto

theorem mem_insSort (le : A → A → Bool) (x : A) (l : List A) :
    x ∈ insSort le l ↔ x ∈ l := by
  induction l with
  | nil => simp [insSort]
  | cons a l ih => simp [insSort, mem_insSorted, ih]

theorem pairwise_insSorted (le : A → A → Bool)
    (htot : ∀ a b, le a b = true ∨ le b a = true)
    (htrans : ∀ a b c, le a b = true → le b c = true → le a c = true)
    (a : A) (l : List A) (hl : l.Pairwise (fun x y => le x y = true)) :
    (insSorted le a l).Pairwise (fun x y => le x y = true) := by
  induction l with
  | nil => simp [insSorted]
  | cons b l ih =>
    rcases List.pairwise_cons.mp hl with ⟨hb, hl2⟩
    by_cases h : le a b = true
    · rw [insSorted, if_pos h]
      refine List.pairwise_cons.mpr ⟨?_, hl⟩
      intro y hy
      rcases List.mem_cons.mp hy with rfl | hy2
      · exact h
      · exact htrans a b y h (hb y hy2)
    · rw [insSorted, if_neg h]
      refine List.pairwise_cons.mpr ⟨?_, ih hl2⟩
      intro y hy
      rcases (mem_insSorted le a y l).mp hy with hy1 | hy2
      · subst hy1
        rcases htot y b with hab | hba
        · exact absurd hab h
        · exact hba
      · exact hb y hy2

theorem pairwise_insSort (le : A → A → Bool)
    (htot : ∀ a b, le a b = true ∨ le b a = true)
    (htrans : ∀ a b c, le a b = true → le b c = true → le a c = true)
    (l : List A) :
    (insSort le l).Pairwise (fun x y => le x y = true) := by
  induction l with
  | nil => simp [insSort]
  | cons a l ih => exact pairwise_insSorted le htot htrans a _ ih

theorem head_append (p x : String) (a : Char) (hp : p.data.head? = some a) :
    (p ++ x).data.head? = some a := by
  rw [String.data_append]
  cases hd : p.data with
  | nil => rw [hd] at hp; cases hp
  | cons c l => rw [hd] at hp; simpa using hp

theorem append_ne_append (p q x y : String) (a b : Char)
    (hp : p.data.head? = some a) (hq : q.data.head? = some b) (hab : a ≠ b) :
    p ++ x ≠ q ++ y := by
  intro h
  have h1 := head_append p x a hp
  have h2 := head_append q y b hq
  rw [h, h2] at h1
  exact hab (Option.some.inj h1).symm

/-! ## C1 : insert-step counts versus newly created rows -/

/-- A one-file CPRT bundle: two documents, two elements, one relationship
type, one relationship. -/
def c1Bundle : Bundle :=
  ⟨[[("document_identifier", "D1"), ("title", "Doc One"), ("version", "1.0"),
     ("website", "w1"), ("type", "standard")],
    [("document_identifier", "D2"), ("title", "Doc Two"), ("version", "2.0"),
     ("website", "w2"), ("type", "standard")]],
   [[("document_identifier", "D1"), ("element_identifier", "E1"),
     ("title", "T1"), ("text", "x1"), ("type", "control")],
    [("document_identifier", "D2"), ("element_identifier", "E3"),
     ("title", "T3"), ("text", "x3"), ("type", "control")]],
   [[("relationship_identifier", "related_to"), ("description", "rt desc"),
     ("value", "1")]],
   [[("source_doc_identifier", "D1"), ("source_element_identifier", "E1"),
     ("dest_doc_identifier", "D2"), ("dest_element_identifier", "E3"),
     ("provenance_doc_identifier", "D1"),
     ("relationship_identifier", "related_to"), ("comment", "c")]]⟩

/-- C1: the claim is false on the code.  Re-running the import of a file on
a store that already contains that file's data reports the same nonzero
per-entity-type counts again — every row hits the uniqueness constraint and
is silently ignored, yet `insert_count` is still incremented for it, so the
count returned by each insert step is the number of rows attempted, not the
number of rows newly created.  Here the second run leaves the store
completely unchanged (zero new rows of every type) while still reporting
counts (2, 2, 1, 1). -/
theorem insert_counts_count_duplicates_bug :
    (runImportFile c1Bundle (runImportFile c1Bundle emptyStore).store).store =
      (runImportFile c1Bundle emptyStore).store ∧
    (runImportFile c1Bundle (runImportFile c1Bundle emptyStore).store).totals =
      (runImportFile c1Bundle emptyStore).totals ∧
    (runImportFile c1Bundle (runImportFile c1Bundle emptyStore).store).totals =
      ⟨2, 2, 1, 1⟩ := by
  refine ⟨by decide, by decide, by decide⟩

/-! ## C4 : format detection -/

/-- C4: `detect_excel_file_type` classifies a single-sheet file without the
baseline column and with the three core columns as the single-sheet variant
("csf"), a multi-sheet file whose first sheet has the baseline column as
the multi-sheet variant ("sp800-53"), and fails on everything else with a
message containing the observed sheet count and column list. -/
theorem detect_excel_file_type_classification (path : String)
    (first : String × List String) (rest : List (String × List String)) :
    (detectExcelFileType path first rest = .ok "csf" ↔
      (1 + rest.length = 1 ∧ baselineCol ∉ cleanCols first.2 ∧
        ∀ c ∈ csfExpectedCols, c ∈ cleanCols first.2)) ∧
    (detectExcelFileType path first rest = .ok "sp800-53" ↔
      (1 + rest.length > 1 ∧ baselineCol ∈ cleanCols first.2)) ∧
    (¬(1 + rest.length > 1 ∧ baselineCol ∈ cleanCols first.2) →
      ¬(1 + rest.length = 1 ∧ baselineCol ∉ cleanCols first.2 ∧
          ∀ c ∈ csfExpectedCols, c ∈ cleanCols first.2) →
      ∃ pre mid, detectExcelFileType path first rest =
        .error (pre ++ toString (1 + rest.length) ++ (mid ++ toString (cleanCols first.2)))) := by
  unfold detectExcelFileType
  split
  next h1 =>
    refine ⟨?_, ?_, fun hc _ => absurd h1 hc⟩
    · simp only [Except.ok.injEq]
      constructor
      · intro h; exact absurd h (by decide)
      · rintro ⟨hn, _, _⟩; omega
    · simp [h1]
  next h1 =>
    split
    next h2 =>
      refine ⟨?_, ?_, fun _ hc => absurd h2 hc⟩
      · exact ⟨fun _ => h2, fun _ => rfl⟩
      · simp only [Except.ok.injEq]
        constructor
        · intro h; exact absurd h (by decide)
        · intro hc; exact absurd hc h1
    next h2 =>
      refine ⟨?_, ?_, ?_⟩
      · constructor
        · intro h; cases h
        · intro hc; exact absurd hc h2
      · constructor
        · intro h; cases h
        · intro hc; exact absurd hc h1
      · intro _ _
        refine ⟨"Error detecting file type for " ++ path ++
          ": Cannot determine file type for " ++ path ++ ". Sheets: ", ", Columns: ", ?_⟩
        simp only [detectErrorMsg, String.append_assoc]

/-- Witness for C4: a one-sheet workbook whose only sheet lacks the core
columns is rejected with the sheet count and column list in the message. -/
theorem detect_excel_file_type_classification_witness :
    ∃ pre mid, detectExcelFileType "f.xlsx" ("Sheet1", ["Other"]) [] =
      .error (pre ++ toString (1 + ([] : List (String × List String)).length) ++
        (mid ++ toString (cleanCols ["Other"]))) :=
  (detect_excel_file_type_classification "f.xlsx" ("Sheet1", ["Other"]) []).2.2
    (by decide) (by decide)

/-! ## C7 : resolver sentinel for missing (document, element) pairs -/

/-- A store containing a single element `C` of the document whose
identifier is the string `A::B`. -/
def c7Store : Store :=
  ⟨[⟨1, "A::B", "Doc", "1.0", "", "standard"⟩],
   [⟨1, 1, "control", "C", "T1", "hello"⟩], [], [], 2, 2, 1⟩

/-- C7 counterexample: the cache key is the composite string
`document_id::element_id`, so two distinct identifier pairs can collide.
After a successful lookup of the pair ("A::B", "C"), the lookup of the
pair ("A", "B::C") — which matches no element in the store — hits the
cache entry and returns that elements data instead of the sentinel: its
title is not "Element not found" and its text ("hello") mentions neither
identifier. -/
theorem lookup_cache_key_collision_counterexample :
    elemLookupFind c7Store "A" "B::C" = none ∧
    (lookupElementText c7Store (lookupElementText c7Store [] "A::B" "C").2 "A" "B::C").1 =
      ⟨"T1", "hello"⟩ ∧
    (lookupElementText c7Store (lookupElementText c7Store [] "A::B" "C").2 "A" "B::C").1.title ≠
      "Element not found" := by
  refine ⟨by decide, by decide, by decide⟩

/-- C7 (amended): provided the cache has no entry under the composite key
`d::e` — in particular on the first lookup of the pair, or whenever no
identifier contains the separator `::` — a lookup of a pair with no
matching element never fails: it returns the sentinel whose title is
"Element not found" and whose diagnostic text contains both the document
identifier and the element identifier. -/
theorem lookup_missing_pair_returns_sentinel (st : Store) (cache : ElemCache)
    (dk ek : String)
    (hcache : cache.lookup (dk ++ "::" ++ ek) = none)
    (hmiss : elemLookupFind st dk ek = none) :
    (lookupElementText st cache dk ek).1 =
      ⟨"Element not found", "Could not locate element " ++ ek ++ " in document " ++ dk⟩ ∧
    ∃ pre mid, (lookupElementText st cache dk ek).1.text = pre ++ ek ++ mid ++ dk := by
  unfold lookupElementText
  rw [hcache, hmiss]
  exact ⟨rfl, "Could not locate element ", " in document ", rfl⟩

/-- Witness for C7: looking up an element absent from the concrete store
with an empty cache yields the sentinel. -/
theorem lookup_missing_pair_returns_sentinel_witness :
    (lookupElementText c7Store [] "X" "Y").1 =
      ⟨"Element not found", "Could not locate element " ++ "Y" ++ " in document " ++ "X"⟩ ∧
    ∃ pre mid, (lookupElementText c7Store [] "X" "Y").1.text = pre ++ "Y" ++ mid ++ "X" :=
  lookup_missing_pair_returns_sentinel c7Store [] "X" "Y" (by decide) (by decide)

/-! ## C8 : creating a provenance (mapping) document -/

/-- C8: `create_provenance_document` generates the identifier
`MAPPING_<target>_TO_<source>_<timestamp>`, stores the new document with
type tag `mapping_document`, and rejects the request with status 400 and
no write when either the target or the source document identifier does not
exist in the store. -/
theorem create_provenance_document_spec (st : Store) (t s ts : String) :
    ((st.documents.find? (fun d => d.doc_identifier == t) = none ∨
      st.documents.find? (fun d => d.doc_identifier == s) = none) →
      createProvenanceDocument st t s ts =
        .error (400, "Target or source document not found")) ∧
    (∀ st2 ident name, createProvenanceDocument st t s ts = .ok (st2, ident, name) →
      ident = "MAPPING_" ++ t ++ "_TO_" ++ s ++ "_" ++ ts ∧
      ∃ d ∈ st2.documents, d.doc_identifier = ident ∧ d.type = "mapping_document" ∧
        d ∉ st.documents) := by
  constructor
  · intro hmiss
    rcases ht : st.documents.find? (fun d => d.doc_identifier == t) with _ | td
    · simp only [createProvenanceDocument, ht]
    · rcases hs : st.documents.find? (fun d => d.doc_identifier == s) with _ | sd
      · simp only [createProvenanceDocument, ht, hs]
      · rcases hmiss with h | h
        · rw [ht] at h; cases h
        · rw [hs] at h; cases h
  · intro st2 ident name hok
    rcases ht : st.documents.find? (fun d => d.doc_identifier == t) with _ | td <;>
      rcases hs : st.documents.find? (fun d => d.doc_identifier == s) with _ | sd <;>
      simp only [createProvenanceDocument, ht, hs] at hok
    · cases hok
    · cases hok
    · cases hok
    by_cases hdup : st.documents.any (fun d => d.doc_identifier == provIdent t s ts) = true
    · rw [if_pos hdup] at hok; cases hok
    · rw [if_neg hdup] at hok
      cases hok
      refine ⟨rfl, ⟨st.nextDocId, provIdent t s ts,
        "Mapping: " ++ td.name ++ " to " ++ sd.name, "1.0",
        "Generated by Document Relationship Mapper", "mapping_document"⟩,
        ?_, rfl, rfl, ?_⟩
      · exact List.mem_append_right _ (List.mem_singleton.mpr rfl)
      · intro hmem
        apply hdup
        exact List.any_eq_true.mpr ⟨_, hmem, by simp⟩

/-- Witness for C8: a concrete store with documents `T` and `S`; creation
succeeds with the generated identifier, and a request naming a missing
document is rejected with status 400. -/
theorem create_provenance_document_spec_witness :
    createProvenanceDocument ⟨[⟨1, "T", "Tn", "1", "", "standard"⟩,
        ⟨2, "S", "Sn", "1", "", "standard"⟩], [], [], [], 3, 1, 1⟩ "T" "MISSING" "20240101" =
      .error (400, "Target or source document not found") ∧
    ("MAPPING_T_TO_S_20240101" : String) = "MAPPING_" ++ "T" ++ "_TO_" ++ "S" ++ "_" ++ "20240101" ∧
    ∃ d ∈ (⟨[⟨1, "T", "Tn", "1", "", "standard"⟩, ⟨2, "S", "Sn", "1", "", "standard"⟩,
        ⟨3, "MAPPING_T_TO_S_20240101", "Mapping: Tn to Sn", "1.0",
         "Generated by Document Relationship Mapper", "mapping_document"⟩],
        [], [], [], 4, 1, 1⟩ : Store).documents,
      d.doc_identifier = "MAPPING_T_TO_S_20240101" ∧ d.type = "mapping_document" ∧
      d ∉ (⟨[⟨1, "T", "Tn", "1", "", "standard"⟩, ⟨2, "S", "Sn", "1", "", "standard"⟩],
        [], [], [], 3, 1, 1⟩ : Store).documents := by
  refine ⟨(create_provenance_document_spec _ "T" "MISSING" "20240101").1 (Or.inr (by decide)),
    ?_⟩
  have h := (create_provenance_document_spec
      ⟨[⟨1, "T", "Tn", "1", "", "standard"⟩, ⟨2, "S", "Sn", "1", "", "standard"⟩],
        [], [], [], 3, 1, 1⟩ "T" "S" "20240101").2
      ⟨[⟨1, "T", "Tn", "1", "", "standard"⟩, ⟨2, "S", "Sn", "1", "", "standard"⟩,
        ⟨3, "MAPPING_T_TO_S_20240101", "Mapping: Tn to Sn", "1.0",
         "Generated by Document Relationship Mapper", "mapping_document"⟩],
        [], [], [], 4, 1, 1⟩
      "MAPPING_T_TO_S_20240101" "Mapping: Tn to Sn" (by rfl)
  exact ⟨h.1, h.2⟩

/-! ## C9 : element title defaulting on insert -/

theorem mem_elemInsertOrIgnore (st : Store) (docId : Nat) (ty ident title text : String)
    (e : ElementRec) (he : e ∈ st.elements) :
    e ∈ (elemInsertOrIgnore st docId ty ident title text).elements := by
  unfold elemInsertOrIgnore
  split
  · exact he
  · exact List.mem_append_left _ he

/-- After an insert-or-ignore, some stored element matches the inserted
uniqueness 4-tuple: either the blocking duplicate or the new row. -/
theorem elemInsertOrIgnore_match (st : Store) (docId : Nat) (ty ident title text : String) :
    ∃ e ∈ (elemInsertOrIgnore st docId ty ident title text).elements,
      e.document_id = docId ∧ e.element_identifier = ident ∧
      e.title = title ∧ e.text = text := by
  unfold elemInsertOrIgnore
  split
  next h =>
    rcases List.any_eq_true.mp h with ⟨e, he, hp⟩
    simp only [Bool.and_eq_true, beq_iff_eq] at hp
    exact ⟨e, he, hp.1.1.1, hp.1.1.2, hp.1.2, hp.2⟩
  next =>
    exact ⟨⟨st.nextElemId, docId, ty, ident, title, text⟩,
      List.mem_append_right _ (List.mem_singleton.mpr rfl), rfl, rfl, rfl, rfl⟩

theorem insElemStep_eq (dm : String → Nat) (acc : Nat × Store) (row : Row) :
    insElemStep dm acc row =
      if dm (rget row "document_identifier" "") == 0 then acc
      else (acc.1 + 1, elemInsertOrIgnore acc.2 (dm (rget row "document_identifier" ""))
        (rget row "type" (rget row "element_type" "unknown"))
        (rget row "element_identifier" "")
        (if rget row "title" "N/A" == "" then "N/A" else rget row "title" "N/A")
        (rget row "text" "")) := rfl

theorem mem_foldl_insElemStep (dm : String → Nat) (rows : List Row) (acc : Nat × Store)
    (e : ElementRec) (he : e ∈ acc.2.elements) :
    e ∈ (rows.foldl (insElemStep dm) acc).2.elements := by
  induction rows generalizing acc with
  | nil => exact he
  | cons r rows ih =>
    rw [List.foldl_cons]
    apply ih
    rw [insElemStep_eq]
    split
    · exact he
    · exact mem_elemInsertOrIgnore _ _ _ _ _ _ e he

/-- C9: an element row whose document resolves is stored (possibly as an
already-present duplicate) with title defaulted to `N/A` when the `title`
cell is missing or empty, and with its identifier and text as given (text
defaulting to the empty string). -/
theorem insert_elements_title_default (st : Store) (rows : List Row) (row : Row)
    (hmem : row ∈ rows)
    (hdoc : docIdMapN st (rget row "document_identifier" "") ≠ 0) :
    ∃ e ∈ (insertElements st rows).2.elements,
      e.document_id = docIdMapN st (rget row "document_identifier" "") ∧
      e.element_identifier = rget row "element_identifier" "" ∧
      e.title = (if rget row "title" "N/A" = "" then "N/A" else rget row "title" "N/A") ∧
      e.text = rget row "text" "" := by
  have hif : (if rget row "title" "N/A" = "" then "N/A" else rget row "title" "N/A") =
      (if rget row "title" "N/A" == "" then "N/A" else rget row "title" "N/A") := by
    by_cases h : rget row "title" "N/A" = "" <;> simp [h]
  rw [hif]
  unfold insertElements
  generalize ((0 : Nat), st) = acc
  induction rows generalizing acc with
  | nil => cases hmem
  | cons r rows ih =>
    rw [List.foldl_cons]
    rcases List.mem_cons.mp hmem with hr | hr
    · subst hr
      rw [insElemStep_eq, if_neg (by simpa using hdoc)]
      rcases elemInsertOrIgnore_match acc.2 (docIdMapN st (rget row "document_identifier" ""))
          (rget row "type" (rget row "element_type" "unknown"))
          (rget row "element_identifier" "")
          (if rget row "title" "N/A" == "" then "N/A" else rget row "title" "N/A")
          (rget row "text" "") with ⟨e, he, h1, h2, h3, h4⟩
      exact ⟨e, mem_foldl_insElemStep _ rows _ e he, h1, h2, h3, h4⟩
    · exact ih hr _


/-- Witness for C9: a row with no `title` key is stored with title "N/A". -/
theorem insert_elements_title_default_witness :
    ∃ e ∈ (insertElements ⟨[⟨1, "D1", "Doc", "1.0", "", "standard"⟩], [], [], [], 2, 1, 1⟩
        [[("document_identifier", "D1"), ("element_identifier", "E1"), ("text", "x")]]).2.elements,
      e.document_id = docIdMapN ⟨[⟨1, "D1", "Doc", "1.0", "", "standard"⟩], [], [], [], 2, 1, 1⟩
        (rget [("document_identifier", "D1"), ("element_identifier", "E1"), ("text", "x")]
          "document_identifier" "") ∧
      e.element_identifier = rget [("document_identifier", "D1"), ("element_identifier", "E1"),
        ("text", "x")] "element_identifier" "" ∧
      e.title = (if rget [("document_identifier", "D1"), ("element_identifier", "E1"),
          ("text", "x")] "title" "N/A" = "" then "N/A"
        else rget [("document_identifier", "D1"), ("element_identifier", "E1"), ("text", "x")]
          "title" "N/A") ∧
      e.text = rget [("document_identifier", "D1"), ("element_identifier", "E1"), ("text", "x")]
        "text" "" :=
  insert_elements_title_default _ _ _ (by decide) (by decide)

/-! ## C10 : enhance with validated columns but no dest_title column -/

theorem getLoc_eq_none (cols : List String) (c : String) (h : c ∉ cols) :
    getLoc cols c = none := by
  induction cols with
  | nil => rfl
  | cons x l ih =>
    rw [getLoc, if_neg, ih (fun hm => h (List.mem_cons_of_mem x hm))]
    · rfl
    · simp only [beq_iff_eq]
      intro he
      exact h (he ▸ List.mem_cons_self x l)

/-- C10: when the Relationships sheet passes the four-column validation but
has no `dest_title` column, the positional lookup fails, the exception is
caught, no enhanced file is written and the failure sentinel is returned. -/
theorem enhance_missing_dest_title_returns_none (st : Store) (cache : ElemCache)
    (sheets : List (String × DataFrame)) (df : DataFrame)
    (hsheet : sheets.lookup "Relationships" = some df)
    (hcols : ∀ c ∈ enhanceRequiredColumns, df.columns.contains c = true)
    (hmissing : "dest_title" ∉ df.columns) :
    enhanceMappingFile st cache sheets = none := by
  unfold enhanceMappingFile
  rw [hsheet]
  have hfilter : enhanceRequiredColumns.filter (fun c => !(df.columns.contains c)) = [] := by
    rw [List.filter_eq_nil_iff]
    intro c hc
    simpa using hcols c hc
  simp [hfilter, getLoc_eq_none df.columns "dest_title" hmissing]

/-- Witness for C10: a sheet with exactly the four validated columns and no
`dest_title` column produces the failure sentinel. -/
theorem enhance_missing_dest_title_returns_none_witness :
    enhanceMappingFile emptyStore []
      [("Relationships", ⟨["source_element", "source_document", "dest_element", "dest_document"],
        []⟩)] = none :=
  enhance_missing_dest_title_returns_none emptyStore []
    [("Relationships", ⟨["source_element", "source_document", "dest_element", "dest_document"],
      []⟩)]
    ⟨["source_element", "source_document", "dest_element", "dest_document"], []⟩
    (by decide) (by decide) (by decide)

/-! ## C5 : referential skip with exact diagnostics -/

theorem insertRelGo_cons_eq (dm : String → Nat) (em : String → String → Nat)
    (tm : String → Nat) (st : Store) (cnt : Nat) (diags : List (List String))
    (row : Row) (rest : List Row) :
    insertRelGo dm em tm st cnt diags (row :: rest) =
      if (em (rget row "source_doc_identifier" "") (rget row "source_element_identifier" "") == 0 ||
          em (rget row "dest_doc_identifier" "") (rget row "dest_element_identifier" "") == 0 ||
          dm (rget row "provenance_doc_identifier" "") == 0 ||
          tm (rget row "relationship_identifier" "") == 0) then
        insertRelGo dm em tm st cnt (diags ++ [missingList dm em tm row]) rest
      else
        insertRelGo dm em tm (relInsertOrIgnore st
            (em (rget row "source_doc_identifier" "") (rget row "source_element_identifier" ""))
            (em (rget row "dest_doc_identifier" "") (rget row "dest_element_identifier" ""))
            (dm (rget row "provenance_doc_identifier" ""))
            (tm (rget row "relationship_identifier" "")) (rget row "comment" ""))
          (cnt + 1) diags rest := rfl

theorem missingList_eq (dm : String → Nat) (em : String → String → Nat) (tm : String → Nat)
    (row : Row) :
    missingList dm em tm row =
      (if em (rget row "source_doc_identifier" "") (rget row "source_element_identifier" "") == 0
        then ["source (" ++ rget row "source_doc_identifier" "" ++ ", " ++
          rget row "source_element_identifier" "" ++ ")"] else []) ++
      (if em (rget row "dest_doc_identifier" "") (rget row "dest_element_identifier" "") == 0
        then ["dest (" ++ rget row "dest_doc_identifier" "" ++ ", " ++
          rget row "dest_element_identifier" "" ++ ")"] else []) ++
      (if dm (rget row "provenance_doc_identifier" "") == 0
        then ["provenance doc (" ++ rget row "provenance_doc_identifier" "" ++ ")"] else []) ++
      (if tm (rget row "relationship_identifier" "") == 0
        then ["relationship type (" ++ rget row "relationship_identifier" "" ++ ")"] else []) := rfl

theorem of_mem_ifSingleton {c : Prop} [inst : Decidable c] {s x : String}
    (h : x ∈ (if c then [s] else [])) : c ∧ x = s := by
  by_cases hc : c
  · rw [if_pos hc] at h
    exact ⟨hc, List.mem_singleton.mp h⟩
  · rw [if_neg hc] at h
    cases h

theorem mem_ifSingleton_of {c : Prop} [inst : Decidable c] (hc : c) (s : String) :
    s ∈ (if c then [s] else []) := by
  rw [if_pos hc]
  exact List.mem_singleton.mpr rfl

theorem head_src (a b : String) :
    ("source (" ++ a ++ ", " ++ b ++ ")").data.head? = some 's' := by
  have h : "source (" ++ a ++ ", " ++ b ++ ")" =
      "source (" ++ (a ++ (", " ++ (b ++ ")"))) := by simp [String.append_assoc]
  rw [h]
  exact head_append _ _ _ (by decide)

theorem head_dst (a b : String) :
    ("dest (" ++ a ++ ", " ++ b ++ ")").data.head? = some 'd' := by
  have h : "dest (" ++ a ++ ", " ++ b ++ ")" =
      "dest (" ++ (a ++ (", " ++ (b ++ ")"))) := by simp [String.append_assoc]
  rw [h]
  exact head_append _ _ _ (by decide)

theorem head_prov (p : String) :
    ("provenance doc (" ++ p ++ ")").data.head? = some 'p' := by
  have h : "provenance doc (" ++ p ++ ")" = "provenance doc (" ++ (p ++ ")") := by
    simp [String.append_assoc]
  rw [h]
  exact head_append _ _ _ (by decide)

theorem head_typ (t : String) :
    ("relationship type (" ++ t ++ ")").data.head? = some 'r' := by
  have h : "relationship type (" ++ t ++ ")" = "relationship type (" ++ (t ++ ")") := by
    simp [String.append_assoc]
  rw [h]
  exact head_append _ _ _ (by decide)

theorem ne_of_heads (s t : String) (a b : Char)
    (hs : s.data.head? = some a) (ht : t.data.head? = some b) (hab : a ≠ b) : s ≠ t := by
  intro he
  rw [he, ht] at hs
  exact hab (Option.some.inj hs).symm

/-- C5: a relationship row with any unresolved reference is skipped — the
store and the count are untouched, one diagnostic is appended whose entries
are exactly the unresolved references (in particular "provenance doc (p)"
is listed precisely when the provenance-document identifier is the
unresolved one) — and processing continues with the remaining rows. -/
theorem insert_relationships_skips_unresolved_row
    (dm : String → Nat) (em : String → String → Nat) (tm : String → Nat)
    (st : Store) (cnt : Nat) (diags : List (List String)) (row : Row) (rest : List Row)
    (hfail : (em (rget row "source_doc_identifier" "") (rget row "source_element_identifier" "") == 0 ||
        em (rget row "dest_doc_identifier" "") (rget row "dest_element_identifier" "") == 0 ||
        dm (rget row "provenance_doc_identifier" "") == 0 ||
        tm (rget row "relationship_identifier" "") == 0) = true) :
    insertRelGo dm em tm st cnt diags (row :: rest) =
      insertRelGo dm em tm st cnt (diags ++ [missingList dm em tm row]) rest ∧
    (("provenance doc (" ++ rget row "provenance_doc_identifier" "" ++ ")") ∈
        missingList dm em tm row ↔
      dm (rget row "provenance_doc_identifier" "") = 0) ∧
    (("source (" ++ rget row "source_doc_identifier" "" ++ ", " ++
        rget row "source_element_identifier" "" ++ ")") ∈ missingList dm em tm row ↔
      em (rget row "source_doc_identifier" "") (rget row "source_element_identifier" "") = 0) ∧
    (("dest (" ++ rget row "dest_doc_identifier" "" ++ ", " ++
        rget row "dest_element_identifier" "" ++ ")") ∈ missingList dm em tm row ↔
      em (rget row "dest_doc_identifier" "") (rget row "dest_element_identifier" "") = 0) ∧
    (("relationship type (" ++ rget row "relationship_identifier" "" ++ ")") ∈
        missingList dm em tm row ↔
      tm (rget row "relationship_identifier" "") = 0) := by
  refine ⟨by rw [insertRelGo_cons_eq, if_pos hfail], ?_, ?_, ?_, ?_⟩ <;> rw [missingList_eq]
  · constructor
    · intro hmem
      rcases List.mem_append.mp hmem with h12 | h4
      · rcases List.mem_append.mp h12 with h12b | h3
        · rcases List.mem_append.mp h12b with h1 | h2
          · rcases of_mem_ifSingleton h1 with ⟨_, hx⟩
            exact absurd hx (ne_of_heads _ _ _ _ (head_prov _) (head_src _ _) (by decide))
          · rcases of_mem_ifSingleton h2 with ⟨_, hx⟩
            exact absurd hx (ne_of_heads _ _ _ _ (head_prov _) (head_dst _ _) (by decide))
        · rcases of_mem_ifSingleton h3 with ⟨hc, _⟩
          simpa using hc
      · rcases of_mem_ifSingleton h4 with ⟨_, hx⟩
        exact absurd hx (ne_of_heads _ _ _ _ (head_prov _) (head_typ _) (by decide))
    · intro h
      exact List.mem_append.mpr (Or.inl (List.mem_append.mpr (Or.inr (mem_ifSingleton_of (by simpa using h) _))))
  · constructor
    · intro hmem
      rcases List.mem_append.mp hmem with h12 | h4
      · rcases List.mem_append.mp h12 with h12b | h3
        · rcases List.mem_append.mp h12b with h1 | h2
          · rcases of_mem_ifSingleton h1 with ⟨hc, _⟩
            simpa using hc
          · rcases of_mem_ifSingleton h2 with ⟨_, hx⟩
            exact absurd hx (ne_of_heads _ _ _ _ (head_src _ _) (head_dst _ _) (by decide))
        · rcases of_mem_ifSingleton h3 with ⟨_, hx⟩
          exact absurd hx (ne_of_heads _ _ _ _ (head_src _ _) (head_prov _) (by decide))
      · rcases of_mem_ifSingleton h4 with ⟨_, hx⟩
        exact absurd hx (ne_of_heads _ _ _ _ (head_src _ _) (head_typ _) (by decide))
    · intro h
      exact List.mem_append.mpr (Or.inl (List.mem_append.mpr (Or.inl (List.mem_append.mpr (Or.inl (mem_ifSingleton_of (by simpa using h) _))))))
  · constructor
    · intro hmem
      rcases List.mem_append.mp hmem with h12 | h4
      · rcases List.mem_append.mp h12 with h12b | h3
        · rcases List.mem_append.mp h12b with h1 | h2
          · rcases of_mem_ifSingleton h1 with ⟨_, hx⟩
            exact absurd hx (ne_of_heads _ _ _ _ (head_dst _ _) (head_src _ _) (by decide))
          · rcases of_mem_ifSingleton h2 with ⟨hc, _⟩
            simpa using hc
        · rcases of_mem_ifSingleton h3 with ⟨_, hx⟩
          exact absurd hx (ne_of_heads _ _ _ _ (head_dst _ _) (head_prov _) (by decide))
      · rcases of_mem_ifSingleton h4 with ⟨_, hx⟩
        exact absurd hx (ne_of_heads _ _ _ _ (head_dst _ _) (head_typ _) (by decide))
    · intro h
      exact List.mem_append.mpr (Or.inl (List.mem_append.mpr (Or.inl (List.mem_append.mpr (Or.inr (mem_ifSingleton_of (by simpa using h) _))))))
  · constructor
    · intro hmem
      rcases List.mem_append.mp hmem with h12 | h4
      · rcases List.mem_append.mp h12 with h12b | h3
        · rcases List.mem_append.mp h12b with h1 | h2
          · rcases of_mem_ifSingleton h1 with ⟨_, hx⟩
            exact absurd hx (ne_of_heads _ _ _ _ (head_typ _) (head_src _ _) (by decide))
          · rcases of_mem_ifSingleton h2 with ⟨_, hx⟩
            exact absurd hx (ne_of_heads _ _ _ _ (head_typ _) (head_dst _ _) (by decide))
        · rcases of_mem_ifSingleton h3 with ⟨_, hx⟩
          exact absurd hx (ne_of_heads _ _ _ _ (head_typ _) (head_prov _) (by decide))
      · rcases of_mem_ifSingleton h4 with ⟨hc, _⟩
        simpa using hc
    · intro h
      exact List.mem_append.mpr (Or.inr (mem_ifSingleton_of (by simpa using h) _))

/-- Witness for C5: a row whose provenance document does not resolve is
skipped with a diagnostic naming "provenance doc". -/
theorem insert_relationships_skips_unresolved_row_witness :
    insertRelGo (fun _ => 0) (fun _ _ => 1) (fun _ => 1) emptyStore 0 []
        ([("provenance_doc_identifier", "P1")] :: []) =
      insertRelGo (fun _ => 0) (fun _ _ => 1) (fun _ => 1) emptyStore 0
        ([] ++ [missingList (fun _ => 0) (fun _ _ => 1) (fun _ => 1)
          [("provenance_doc_identifier", "P1")]]) [] ∧
    ("provenance doc (" ++
        rget [("provenance_doc_identifier", "P1")] "provenance_doc_identifier" "" ++ ")") ∈
      missingList (fun _ => 0) (fun _ _ => 1) (fun _ => 1)
        [("provenance_doc_identifier", "P1")] :=
  have h := insert_relationships_skips_unresolved_row (fun _ => 0) (fun _ _ => 1) (fun _ => 1)
    emptyStore 0 [] [("provenance_doc_identifier", "P1")] [] (by decide)
  ⟨h.1, h.2.1.mpr (by decide)⟩

/-! ## C6 : per-file rollback, batch continues -/

theorem processBatch_cons (g : Store → Except String (Totals × Store))
    (rest : List (Store → Except String (Totals × Store))) (st : Store) (tot : Totals) :
    processBatch (g :: rest) st tot =
      match g st with
      | .ok (c, st2) => processBatch rest st2 (addTotals tot c)
      | .error _ => processBatch rest st tot := by
  conv_lhs => rw [processBatch]

/-- C6: if the file `f` fails (any exception between `BEGIN TRANSACTION`
and `commit`) at the point of the batch it occupies, its transaction is
rolled back and the batch result — final store and accumulated totals —
is exactly that of the batch without `f`: the store is unchanged by the
failed file, its counts are not added, the following files are still
processed, and files committed earlier remain committed. -/
theorem process_batch_failed_file_rolls_back_and_continues
    (fs1 fs2 : List (Store → Except String (Totals × Store)))
    (f : Store → Except String (Totals × Store)) (st : Store) (tot : Totals) (e : String)
    (h : f (processBatch fs1 st tot).1 = .error e) :
    processBatch (fs1 ++ f :: fs2) st tot = processBatch (fs1 ++ fs2) st tot := by
  induction fs1 generalizing st tot with
  | nil =>
    have h0 : f st = .error e := h
    simp only [List.nil_append]
    rw [processBatch_cons, h0]
  | cons g gs ih =>
    simp only [List.cons_append]
    rw [processBatch_cons, processBatch_cons]
    cases hg : g st with
    | ok p =>
      have h2 : f (processBatch gs p.2 (addTotals tot p.1)).1 = .error e := by
        rw [← h, processBatch_cons, hg]
      exact ih p.2 (addTotals tot p.1) h2
    | error err =>
      have h2 : f (processBatch gs st tot).1 = .error e := by
        rw [← h, processBatch_cons, hg]
      exact ih st tot h2

/-- Witness for C6: a three-file batch whose middle file is unreadable
produces exactly the store and totals of the two-file batch without it. -/
theorem process_batch_failed_file_rolls_back_and_continues_witness :
    processBatch [importFileProc (.ok c1Bundle), importFileProc (.error "unreadable"),
        importFileProc (.ok c1Bundle)] emptyStore ⟨0, 0, 0, 0⟩ =
      processBatch [importFileProc (.ok c1Bundle), importFileProc (.ok c1Bundle)]
        emptyStore ⟨0, 0, 0, 0⟩ :=
  process_batch_failed_file_rolls_back_and_continues [importFileProc (.ok c1Bundle)]
    [importFileProc (.ok c1Bundle)] (importFileProc (.error "unreadable"))
    emptyStore ⟨0, 0, 0, 0⟩ "unreadable" rfl

/-! ## C3 : export filter, ordering, sheet contents -/

theorem mem_exportFilteredRows (st : Store) (P : List String) (er : ExportRow) (hP : P ≠ []) :
    er ∈ exportFilteredRows st P ↔
      (er ∈ exportJoinRows st ∧ er.provenance_doc_identifier ∈ P) := by
  unfold exportFilteredRows
  rw [if_neg (fun hh => hP (List.isEmpty_iff.mp hh))]
  rw [List.mem_filter]
  constructor
  · rintro ⟨h1, h2⟩
    exact ⟨h1, by simpa using h2⟩
  · rintro ⟨h1, h2⟩
    exact ⟨h1, by simpa using h2⟩

theorem exportKeyLE_total (a b : ExportRow) :
    exportKeyLE a b = true ∨ exportKeyLE b a = true := by
  unfold exportKeyLE
  by_cases h : a.source_doc_identifier = b.source_doc_identifier
  · rw [if_pos h, if_pos h.symm]
    rcases le_total a.source_element_identifier b.source_element_identifier with hle | hle
    · exact Or.inl (decide_eq_true hle)
    · exact Or.inr (decide_eq_true hle)
  · rw [if_neg h, if_neg (fun hh => h hh.symm)]
    rcases le_total a.source_doc_identifier b.source_doc_identifier with hle | hle
    · exact Or.inl (decide_eq_true hle)
    · exact Or.inr (decide_eq_true hle)

theorem exportKeyLE_trans (a b c : ExportRow)
    (h1 : exportKeyLE a b = true) (h2 : exportKeyLE b c = true) :
    exportKeyLE a c = true := by
  unfold exportKeyLE at *
  by_cases hab : a.source_doc_identifier = b.source_doc_identifier <;>
    by_cases hbc : b.source_doc_identifier = c.source_doc_identifier
  · rw [if_pos hab] at h1
    rw [if_pos hbc] at h2
    rw [if_pos (hab.trans hbc)]
    exact decide_eq_true (le_trans (of_decide_eq_true h1) (of_decide_eq_true h2))
  · rw [if_pos hab] at h1
    rw [if_neg hbc] at h2
    rw [if_neg (fun hh => hbc (hab ▸ hh)), hab]
    exact h2
  · rw [if_neg hab] at h1
    rw [if_pos hbc] at h2
    rw [if_neg (fun hh => hab (hh.trans hbc.symm)), ← hbc]
    exact h1
  · rw [if_neg hab] at h1
    rw [if_neg hbc] at h2
    have hac : a.source_doc_identifier ≤ c.source_doc_identifier :=
      le_trans (of_decide_eq_true h1) (of_decide_eq_true h2)
    by_cases hiac : a.source_doc_identifier = c.source_doc_identifier
    · exact absurd (le_antisymm (of_decide_eq_true h1) (hiac ▸ of_decide_eq_true h2)) hab
    · rw [if_neg hiac]
      exact decide_eq_true hac

theorem mem_documentsSheetRecs (st : Store) (P : List String) (d : DocumentRec) :
    d ∈ documentsSheetRecs st P ↔
      (d ∈ st.documents ∧ ∃ er ∈ exportFilteredRows st P,
        er.source_doc_identifier = d.doc_identifier ∨
        er.dest_doc_identifier = d.doc_identifier) := by
  unfold documentsSheetRecs
  rw [mem_insSort, List.mem_filter]
  constructor
  · rintro ⟨h1, h2⟩
    rcases List.any_eq_true.mp h2 with ⟨er, her, hp⟩
    refine ⟨h1, er, her, ?_⟩
    rcases Bool.or_eq_true _ _ |>.mp hp with hh | hh
    · exact Or.inl (by simpa using hh)
    · exact Or.inr (by simpa using hh)
  · rintro ⟨h1, er, her, hp⟩
    refine ⟨h1, List.any_eq_true.mpr ⟨er, her, ?_⟩⟩
    rcases hp with hh | hh
    · exact Bool.or_eq_true _ _ |>.mpr (Or.inl (by simpa using hh))
    · exact Bool.or_eq_true _ _ |>.mpr (Or.inr (by simpa using hh))

theorem mem_elementsSheetRecs (st : Store) (P : List String) (d : DocumentRec)
    (e : ElementRec) :
    (d, e) ∈ elementsSheetRecs st P ↔
      (e ∈ st.elements ∧
       st.documents.find? (fun d2 => d2.document_id == e.document_id) = some d ∧
       ∃ er ∈ exportFilteredRows st P,
         er.source_element_id = e.element_id ∨ er.dest_element_id = e.element_id) := by
  unfold elementsSheetRecs
  rw [mem_insSort, List.mem_filterMap]
  constructor
  · rintro ⟨e2, he2, hmap⟩
    by_cases hc : (exportFilteredRows st P).any (fun r =>
        r.source_element_id == e2.element_id || r.dest_element_id == e2.element_id) = true
    · rw [if_pos hc] at hmap
      rcases Option.map_eq_some'.mp hmap with ⟨d2, hfind, heq⟩
      have hd : d2 = d := congrArg Prod.fst heq
      have he : e2 = e := congrArg Prod.snd heq
      subst hd; subst he
      refine ⟨he2, hfind, ?_⟩
      rcases List.any_eq_true.mp hc with ⟨er, her, hp⟩
      refine ⟨er, her, ?_⟩
      rcases Bool.or_eq_true _ _ |>.mp hp with hh | hh
      · exact Or.inl (by simpa using hh)
      · exact Or.inr (by simpa using hh)
    · rw [if_neg hc] at hmap
      cases hmap
  · rintro ⟨he, hfind, er, her, hp⟩
    refine ⟨e, he, ?_⟩
    have hc : (exportFilteredRows st P).any (fun r =>
        r.source_element_id == e.element_id || r.dest_element_id == e.element_id) = true := by
      refine List.any_eq_true.mpr ⟨er, her, ?_⟩
      rcases hp with hh | hh
      · exact Bool.or_eq_true _ _ |>.mpr (Or.inl (by simpa using hh))
      · exact Bool.or_eq_true _ _ |>.mpr (Or.inr (by simpa using hh))
    rw [if_pos hc, hfind]
    rfl

/-- C3 (amended): with a nonempty provenance filter {P}, the export
contains exactly the join rows whose provenance document identifier is in
{P}, ordered by (source document identifier, source element identifier);
the elements sheet contains exactly the elements referenced as source or
destination of those rows (joined to their document); and the documents
sheet contains exactly the documents whose identifier occurs as a source
or destination document of those rows — a document referenced only as
provenance is not included. -/
theorem export_filter_order_and_sheet_contents (st : Store) (P : List String) (hP : P ≠ []) :
    (∀ er, er ∈ exportSortedRows st P ↔
      (er ∈ exportJoinRows st ∧ er.provenance_doc_identifier ∈ P)) ∧
    (exportSortedRows st P).Pairwise (fun a b => exportKeyLE a b = true) ∧
    (∀ d, d ∈ documentsSheetRecs st P ↔
      (d ∈ st.documents ∧ ∃ er ∈ exportFilteredRows st P,
        er.source_doc_identifier = d.doc_identifier ∨
        er.dest_doc_identifier = d.doc_identifier)) ∧
    (∀ d e, (d, e) ∈ elementsSheetRecs st P ↔
      (e ∈ st.elements ∧
       st.documents.find? (fun d2 => d2.document_id == e.document_id) = some d ∧
       ∃ er ∈ exportFilteredRows st P,
         er.source_element_id = e.element_id ∨ er.dest_element_id = e.element_id)) := by
  refine ⟨?_, ?_, ?_, ?_⟩
  · intro er
    unfold exportSortedRows
    rw [mem_insSort]
    exact mem_exportFilteredRows st P er hP
  · exact pairwise_insSort _ exportKeyLE_total exportKeyLE_trans _
  · intro d
    exact mem_documentsSheetRecs st P d
  · intro d e
    exact mem_elementsSheetRecs st P d e

/-- A store whose single relationship has a pure provenance document `P`
(a mapping document owning no element): D1 owns E1, E2; the relationship
E1 → E2 is asserted by provenance P with type related_to. -/
def c3Store : Store :=
  ⟨[⟨1, "D1", "Doc One", "1.0", "", "standard"⟩,
    ⟨2, "P", "Mapping P", "1.0", "", "mapping_document"⟩],
   [⟨1, 1, "control", "E1", "T1", "x1"⟩, ⟨2, 1, "control", "E2", "T2", "x2"⟩],
   [⟨1, "related_to", "", ""⟩],
   [⟨1, 2, 2, 1, ""⟩], 3, 3, 2⟩

/-- C3 counterexample: exporting filtered to provenance {P} yields one
relationship whose provenance document is P, yet the documents sheet —
built from source and destination document identifiers only — omits P
although P is referenced by that relationship, contradicting "the
documents sheet contains exactly the rows actually referenced by the
filtered relationships". -/
theorem export_documents_sheet_omits_provenance_doc :
    (exportFilteredRows c3Store ["P"]).length = 1 ∧
    (∀ er ∈ exportFilteredRows c3Store ["P"], er.provenance_doc_identifier = "P") ∧
    (∃ d ∈ c3Store.documents, d.doc_identifier = "P") ∧
    (∀ d ∈ documentsSheetRecs c3Store ["P"], d.doc_identifier ≠ "P") := by
  refine ⟨by decide, by decide, by decide, by decide⟩

/-- Witness for C3: the amended characterization instantiated on the
concrete store and its export row. -/
theorem export_filter_order_and_sheet_contents_witness :
    ((⟨"E1", "D1", "E2", "D1", "P", "related_to", "", 1, 2⟩ : ExportRow) ∈
        exportSortedRows c3Store ["P"] ↔
      ((⟨"E1", "D1", "E2", "D1", "P", "related_to", "", 1, 2⟩ : ExportRow) ∈
          exportJoinRows c3Store ∧ "P" ∈ ["P"])) ∧
    (exportSortedRows c3Store ["P"]).Pairwise (fun a b => exportKeyLE a b = true) ∧
    ((⟨1, "D1", "Doc One", "1.0", "", "standard"⟩ : DocumentRec) ∈
        documentsSheetRecs c3Store ["P"] ↔
      ((⟨1, "D1", "Doc One", "1.0", "", "standard"⟩ : DocumentRec) ∈ c3Store.documents ∧
        ∃ er ∈ exportFilteredRows c3Store ["P"],
          er.source_doc_identifier = "D1" ∨ er.dest_doc_identifier = "D1")) ∧
    (((⟨1, "D1", "Doc One", "1.0", "", "standard"⟩ : DocumentRec),
        (⟨1, 1, "control", "E1", "T1", "x1"⟩ : ElementRec)) ∈
        elementsSheetRecs c3Store ["P"] ↔
      ((⟨1, 1, "control", "E1", "T1", "x1"⟩ : ElementRec) ∈ c3Store.elements ∧
        c3Store.documents.find? (fun d2 => d2.document_id == (1 : Nat)) =
          some ⟨1, "D1", "Doc One", "1.0", "", "standard"⟩ ∧
        ∃ er ∈ exportFilteredRows c3Store ["P"],
          er.source_element_id = 1 ∨ er.dest_element_id = 1)) := by
  have h := export_filter_order_and_sheet_contents c3Store ["P"] (by decide)
  exact ⟨h.1 _, h.2.1, h.2.2.1 _, h.2.2.2 _ _⟩

/-! ## C2 : export / re-import round trip

Store invariants.  `WFStore` collects the properties every store reachable
through this code base satisfies: ids are positive, below the AUTOINCREMENT
counters and pairwise distinct (SQLite primary keys), `doc_identifier` and
`relationship_identifier` are unique (their UNIQUE constraints), and
relationship and element foreign keys reference existing rows (every row is
only ever inserted after its referents resolved). -/

def WFStore (st : Store) : Prop :=
  (∀ d ∈ st.documents, 0 < d.document_id ∧ d.document_id < st.nextDocId) ∧
  st.documents.Pairwise (fun a b => a.document_id ≠ b.document_id) ∧
  st.documents.Pairwise (fun a b => a.doc_identifier ≠ b.doc_identifier) ∧
  (∀ e ∈ st.elements, 0 < e.element_id ∧ e.element_id < st.nextElemId) ∧
  st.elements.Pairwise (fun a b => a.element_id ≠ b.element_id) ∧
  (∀ t ∈ st.relationship_types, 0 < t.type_id ∧ t.type_id < st.nextTypeId) ∧
  st.relationship_types.Pairwise (fun a b => a.type_id ≠ b.type_id) ∧
  st.relationship_types.Pairwise
    (fun a b => a.relationship_identifier ≠ b.relationship_identifier) ∧
  (∀ e ∈ st.elements, ∃ d ∈ st.documents, d.document_id = e.document_id) ∧
  (∀ r ∈ st.relationships,
    (∃ e ∈ st.elements, e.element_id = r.source_id) ∧
    (∃ e ∈ st.elements, e.element_id = r.dest_id) ∧
    (∃ d ∈ st.documents, d.document_id = r.prov_doc_id) ∧
    (∃ t ∈ st.relationship_types, t.type_id = r.relationship_type))

/-- No two stored elements share the same (document identifier, element
identifier) resolution key: this is what makes the import-side
`element_id_map` lossless.  The elements table only enforces uniqueness of
(document, identifier, title, text), so this is a genuine extra
assumption. -/
def ElemKeyInjective (st : Store) : Prop :=
  ∀ e1 ∈ st.elements, ∀ e2 ∈ st.elements, ∀ d1 ∈ st.documents, ∀ d2 ∈ st.documents,
    d1.document_id = e1.document_id → d2.document_id = e2.document_id →
    d1.doc_identifier = d2.doc_identifier →
    e1.element_identifier = e2.element_identifier → e1.element_id = e2.element_id

/-- No stored document has the empty identifier (the re-imported sheets
resolve their unnamed document column to the empty string). -/
def NoEmptyDocIdent (st : Store) : Prop :=
  ∀ d ∈ st.documents, d.doc_identifier ≠ ""

instance (st : Store) : Decidable (WFStore st) := by
  unfold WFStore
  exact inferInstance

instance (st : Store) : Decidable (ElemKeyInjective st) := by
  unfold ElemKeyInjective
  exact inferInstance

instance (st : Store) : Decidable (NoEmptyDocIdent st) := by
  unfold NoEmptyDocIdent
  exact inferInstance

theorem eq_of_pairwise_ne {A : Type} (f : A → Nat) (l : List A)
    (hp : l.Pairwise (fun x y => f x ≠ f y)) (a b : A)
    (ha : a ∈ l) (hb : b ∈ l) (hf : f a = f b) : a = b := by
  induction l with
  | nil => cases ha
  | cons x xs ih =>
    rcases List.pairwise_cons.mp hp with ⟨hx, hxs⟩
    rcases List.mem_cons.mp ha with rfl | ha2
    · rcases List.mem_cons.mp hb with rfl | hb2
      · rfl
      · exact absurd hf (hx b hb2)
    · rcases List.mem_cons.mp hb with rfl | hb2
      · exact absurd hf.symm (hx a ha2)
      · exact ih hxs ha2 hb2

theorem eq_of_pairwise_ne_str {A : Type} (f : A → String) (l : List A)
    (hp : l.Pairwise (fun x y => f x ≠ f y)) (a b : A)
    (ha : a ∈ l) (hb : b ∈ l) (hf : f a = f b) : a = b := by
  induction l with
  | nil => cases ha
  | cons x xs ih =>
    rcases List.pairwise_cons.mp hp with ⟨hx, hxs⟩
    rcases List.mem_cons.mp ha with rfl | ha2
    · rcases List.mem_cons.mp hb with rfl | hb2
      · rfl
      · exact absurd hf (hx b hb2)
    · rcases List.mem_cons.mp hb with rfl | hb2
      · exact absurd hf.symm (hx a ha2)
      · exact ih hxs ha2 hb2

/-! The `insert_count` component never influences the store component of
the insert folds. -/

theorem foldl_insDocStep_snd (rows : List Row) (n : Nat) (st : Store) :
    (rows.foldl insDocStep (n, st)).2 = (insertDocuments st rows).2 := by
  unfold insertDocuments
  induction rows generalizing n st with
  | nil => rfl
  | cons r rest ih =>
    rw [List.foldl_cons, List.foldl_cons]
    rw [show insDocStep (n, st) r = (n + 1, (insDocStep (0, st) r).2) from rfl]
    rw [ih (n + 1)]
    rw [show insDocStep (0, st) r = (1, (insDocStep (0, st) r).2) from rfl]
    rw [ih 1]

theorem foldl_insElemStep_snd (dm : String → Nat) (rows : List Row) (n : Nat) (st : Store) :
    (rows.foldl (insElemStep dm) (n, st)).2 =
      (rows.foldl (insElemStep dm) (0, st)).2 := by
  induction rows generalizing n st with
  | nil => rfl
  | cons r rest ih =>
    rw [List.foldl_cons, List.foldl_cons]
    by_cases h : (dm (rget r "document_identifier" "") == 0) = true
    · rw [show insElemStep dm (n, st) r = (n, st) from by rw [insElemStep_eq]; exact if_pos h,
        show insElemStep dm (0, st) r = (0, st) from by rw [insElemStep_eq]; exact if_pos h]
      exact ih n st
    · have hstep : ∀ m, insElemStep dm (m, st) r =
          (m + 1, elemInsertOrIgnore st (dm (rget r "document_identifier" ""))
            (rget r "type" (rget r "element_type" "unknown")) (rget r "element_identifier" "")
            (if rget r "title" "N/A" == "" then "N/A" else rget r "title" "N/A")
            (rget r "text" "")) := fun m => by rw [insElemStep_eq]; exact if_neg h
      rw [hstep n, hstep 0, ih (n + 1), ih 1]

theorem foldl_insTypeStep_snd (rows : List Row) (n : Nat) (st : Store) :
    (rows.foldl insTypeStep (n, st)).2 = (insertRelationshipTypes st rows).2 := by
  unfold insertRelationshipTypes
  induction rows generalizing n st with
  | nil => rfl
  | cons r rest ih =>
    rw [List.foldl_cons, List.foldl_cons]
    rw [show insTypeStep (n, st) r = (n + 1, (insTypeStep (0, st) r).2) from rfl]
    rw [ih (n + 1)]
    rw [show insTypeStep (0, st) r = (1, (insTypeStep (0, st) r).2) from rfl]
    rw [ih 1]

theorem insDocStep_eq (acc : Nat × Store) (row : Row) :
    insDocStep acc row = (acc.1 + 1, docInsertOrIgnore acc.2
      (rget row "document_identifier" "") (rget row "title" (rget row "name" ""))
      (rget row "version" "1.0") (rget row "website" "") (rget row "type" "unknown")) := rfl

theorem insTypeStep_eq (acc : Nat × Store) (row : Row) :
    insTypeStep acc row = (acc.1 + 1, typeInsertOrIgnore acc.2
      (rget row "relationship_identifier" "") (rget row "description" "")
      (rget row "value" "")) := rfl

theorem docInsertOrIgnore_dup (st : Store) (i n v w t : String)
    (h : (st.documents.any fun d => d.doc_identifier == i) = true) :
    docInsertOrIgnore st i n v w t = st := by
  unfold docInsertOrIgnore
  exact if_pos h

theorem docInsertOrIgnore_new (st : Store) (i n v w t : String)
    (h : ¬(st.documents.any fun d => d.doc_identifier == i) = true) :
    docInsertOrIgnore st i n v w t =
      { st with
        documents := st.documents ++ [⟨st.nextDocId, i, n, v, w, t⟩],
        nextDocId := st.nextDocId + 1 } := by
  unfold docInsertOrIgnore
  exact if_neg h

theorem elemInsertOrIgnore_dup (st : Store) (docId : Nat) (ty ident title text : String)
    (h : (st.elements.any fun e => e.document_id == docId &&
      e.element_identifier == ident && e.title == title && e.text == text) = true) :
    elemInsertOrIgnore st docId ty ident title text = st := by
  unfold elemInsertOrIgnore
  exact if_pos h

theorem elemInsertOrIgnore_new (st : Store) (docId : Nat) (ty ident title text : String)
    (h : ¬(st.elements.any fun e => e.document_id == docId &&
      e.element_identifier == ident && e.title == title && e.text == text) = true) :
    elemInsertOrIgnore st docId ty ident title text =
      { st with
        elements := st.elements ++ [⟨st.nextElemId, docId, ty, ident, title, text⟩],
        nextElemId := st.nextElemId + 1 } := by
  unfold elemInsertOrIgnore
  exact if_neg h

theorem typeInsertOrIgnore_dup (st : Store) (ident description value : String)
    (h : (st.relationship_types.any fun t => t.relationship_identifier == ident) = true) :
    typeInsertOrIgnore st ident description value = st := by
  unfold typeInsertOrIgnore
  exact if_pos h

theorem relInsertOrIgnore_dup (st : Store) (s d p t : Nat) (comment : String)
    (h : (st.relationships.any fun r => r.source_id == s && r.dest_id == d &&
      r.prov_doc_id == p && r.relationship_type == t) = true) :
    relInsertOrIgnore st s d p t comment = st := by
  unfold relInsertOrIgnore
  exact if_pos h

/-- What `insert_documents` does to the store: it appends fresh documents
(ids at or above the incoming counter, identifiers drawn from the rows) and
touches nothing else. -/
theorem insertDocuments_spec (st : Store) (rows : List Row) :
    ∃ extra, (insertDocuments st rows).2.documents = st.documents ++ extra ∧
      st.nextDocId ≤ (insertDocuments st rows).2.nextDocId ∧
      (∀ d ∈ extra, st.nextDocId ≤ d.document_id ∧
        d.doc_identifier ∈ rows.map (fun r => rget r "document_identifier" "")) ∧
      (insertDocuments st rows).2.elements = st.elements ∧
      (insertDocuments st rows).2.relationship_types = st.relationship_types ∧
      (insertDocuments st rows).2.relationships = st.relationships ∧
      (insertDocuments st rows).2.nextElemId = st.nextElemId ∧
      (insertDocuments st rows).2.nextTypeId = st.nextTypeId := by
  induction rows generalizing st with
  | nil => exact ⟨[], by simp [insertDocuments], le_refl _, by simp, by simp [insertDocuments],
      by simp [insertDocuments], by simp [insertDocuments], by simp [insertDocuments],
      by simp [insertDocuments]⟩
  | cons r rest ih =>
    have h2 : (insertDocuments st (r :: rest)).2 =
        (insertDocuments (insDocStep (0, st) r).2 rest).2 := by
      show (rest.foldl insDocStep (insDocStep (0, st) r)).2 = _
      rw [show insDocStep (0, st) r = (1, (insDocStep (0, st) r).2) from rfl,
        foldl_insDocStep_snd]
    rw [h2]
    by_cases hdup : (st.documents.any fun d =>
        d.doc_identifier == rget r "document_identifier" "") = true
    · have hs : (insDocStep (0, st) r).2 = st := by
        rw [insDocStep_eq]
        exact docInsertOrIgnore_dup st _ _ _ _ _ hdup
      rw [hs]
      rcases ih st with ⟨extra, ha, hb, hc, hd, he, hf, hg, hh⟩
      exact ⟨extra, ha, hb,
        fun d hd2 => ⟨(hc d hd2).1, List.mem_cons_of_mem _ (hc d hd2).2⟩,
        hd, he, hf, hg, hh⟩
    · have hs : (insDocStep (0, st) r).2 =
          { st with
            documents := st.documents ++
              [⟨st.nextDocId, rget r "document_identifier" "",
                rget r "title" (rget r "name" ""), rget r "version" "1.0",
                rget r "website" "", rget r "type" "unknown"⟩],
            nextDocId := st.nextDocId + 1 } := by
        rw [insDocStep_eq]
        exact docInsertOrIgnore_new st _ _ _ _ _ hdup
      rw [hs]
      rcases ih { st with
          documents := st.documents ++
            [⟨st.nextDocId, rget r "document_identifier" "",
              rget r "title" (rget r "name" ""), rget r "version" "1.0",
              rget r "website" "", rget r "type" "unknown"⟩],
          nextDocId := st.nextDocId + 1 } with ⟨extra, ha, hb, hc, hd, he, hf, hg, hh⟩
      refine ⟨⟨st.nextDocId, rget r "document_identifier" "",
          rget r "title" (rget r "name" ""), rget r "version" "1.0",
          rget r "website" "", rget r "type" "unknown"⟩ :: extra, ?_, ?_, ?_, hd, he, hf, hg, hh⟩
      · rw [ha]
        simp
      · exact le_trans (Nat.le_succ _) hb
      · intro d hd2
        rcases List.mem_cons.mp hd2 with rfl | hd3
        · exact ⟨le_refl _, List.mem_cons_self _ _⟩
        · exact ⟨le_trans (Nat.le_succ _) (hc d hd3).1,
            List.mem_cons_of_mem _ (hc d hd3).2⟩

/-- What `insert_elements` does to the store, for an arbitrary fixed
document map `dm`: it appends fresh elements whose `document_id` is the
(nonzero) resolution of some row, and touches nothing else. -/
theorem insElemFold_spec (dm : String → Nat) (rows : List Row) (st : Store) :
    ∃ extra, (rows.foldl (insElemStep dm) (0, st)).2.elements = st.elements ++ extra ∧
      st.nextElemId ≤ (rows.foldl (insElemStep dm) (0, st)).2.nextElemId ∧
      (∀ e ∈ extra, st.nextElemId ≤ e.element_id ∧
        ∃ r ∈ rows, e.document_id = dm (rget r "document_identifier" "") ∧
          dm (rget r "document_identifier" "") ≠ 0) ∧
      (rows.foldl (insElemStep dm) (0, st)).2.documents = st.documents ∧
      (rows.foldl (insElemStep dm) (0, st)).2.relationship_types = st.relationship_types ∧
      (rows.foldl (insElemStep dm) (0, st)).2.relationships = st.relationships ∧
      (rows.foldl (insElemStep dm) (0, st)).2.nextDocId = st.nextDocId ∧
      (rows.foldl (insElemStep dm) (0, st)).2.nextTypeId = st.nextTypeId := by
  induction rows generalizing st with
  | nil => exact ⟨[], by simp, le_refl _, by simp, rfl, rfl, rfl, rfl, rfl⟩
  | cons r rest ih =>
    rw [List.foldl_cons]
    by_cases hskip : (dm (rget r "document_identifier" "") == 0) = true
    · have hs : insElemStep dm (0, st) r = (0, st) := by
        rw [insElemStep_eq]
        exact if_pos hskip
      rw [hs]
      rcases ih st with ⟨extra, ha, hb, hc, hd, he, hf, hg, hh⟩
      exact ⟨extra, ha, hb,
        fun e he2 => ⟨(hc e he2).1,
          (hc e he2).2.elim (fun r2 hr2 => ⟨r2, List.mem_cons_of_mem _ hr2.1, hr2.2⟩)⟩,
        hd, he, hf, hg, hh⟩
    · have hstep : insElemStep dm (0, st) r =
          (1, elemInsertOrIgnore st (dm (rget r "document_identifier" ""))
            (rget r "type" (rget r "element_type" "unknown")) (rget r "element_identifier" "")
            (if rget r "title" "N/A" == "" then "N/A" else rget r "title" "N/A")
            (rget r "text" "")) := by
        rw [insElemStep_eq]
        exact if_neg hskip
      rw [hstep, foldl_insElemStep_snd dm rest 1]
      by_cases hdup : (st.elements.any fun e =>
          e.document_id == dm (rget r "document_identifier" "") &&
          e.element_identifier == rget r "element_identifier" "" &&
          e.title == (if rget r "title" "N/A" == "" then "N/A" else rget r "title" "N/A") &&
          e.text == rget r "text" "") = true
      · rw [elemInsertOrIgnore_dup _ _ _ _ _ _ hdup]
        rcases ih st with ⟨extra, ha, hb, hc, hd, he, hf, hg, hh⟩
        exact ⟨extra, ha, hb,
          fun e he2 => ⟨(hc e he2).1,
            (hc e he2).2.elim (fun r2 hr2 => ⟨r2, List.mem_cons_of_mem _ hr2.1, hr2.2⟩)⟩,
          hd, he, hf, hg, hh⟩
      · rw [elemInsertOrIgnore_new _ _ _ _ _ _ hdup]
        rcases ih { st with
            elements := st.elements ++
              [⟨st.nextElemId, dm (rget r "document_identifier" ""),
                rget r "type" (rget r "element_type" "unknown"), rget r "element_identifier" "",
                (if rget r "title" "N/A" == "" then "N/A" else rget r "title" "N/A"),
                rget r "text" ""⟩],
            nextElemId := st.nextElemId + 1 } with ⟨extra, ha, hb, hc, hd, he, hf, hg, hh⟩
        refine ⟨⟨st.nextElemId, dm (rget r "document_identifier" ""),
            rget r "type" (rget r "element_type" "unknown"), rget r "element_identifier" "",
            (if rget r "title" "N/A" == "" then "N/A" else rget r "title" "N/A"),
            rget r "text" ""⟩ :: extra, ?_, ?_, ?_, hd, he, hf, hg, hh⟩
        · rw [ha]
          simp
        · exact le_trans (Nat.le_succ _) hb
        · intro e he2
          rcases List.mem_cons.mp he2 with rfl | he3
          · exact ⟨le_refl _, r, List.mem_cons_self _ _, rfl, by simpa using hskip⟩
          · exact ⟨le_trans (Nat.le_succ _) (hc e he3).1,
              (hc e he3).2.elim (fun r2 hr2 => ⟨r2, List.mem_cons_of_mem _ hr2.1, hr2.2⟩)⟩

/-- `insert_relationship_types` is the identity when every row names an
already-stored relationship type. -/
theorem insertRelationshipTypes_noop (st : Store) (rows : List Row)
    (h : ∀ r ∈ rows, (st.relationship_types.any fun t =>
      t.relationship_identifier == rget r "relationship_identifier" "") = true) :
    (insertRelationshipTypes st rows).2 = st := by
  induction rows with
  | nil => rfl
  | cons r rest ih =>
    show (rest.foldl insTypeStep (insTypeStep (0, st) r)).2 = st
    rw [show insTypeStep (0, st) r = (1, (insTypeStep (0, st) r).2) from rfl,
      foldl_insTypeStep_snd]
    rw [show (insTypeStep (0, st) r).2 = st from by
      rw [insTypeStep_eq]
      exact typeInsertOrIgnore_dup st _ _ _ (h r (List.mem_cons_self _ _))]
    exact ih (fun r2 hr2 => h r2 (List.mem_cons_of_mem _ hr2))

/-- `insert_relationships` leaves the store untouched when the resolved
4-tuple of every row is already present. -/
theorem insertRelGo_store_const (dm : String → Nat) (em : String → String → Nat)
    (tm : String → Nat) (st : Store) (cnt : Nat) (diags : List (List String))
    (rows : List Row)
    (h : ∀ r ∈ rows, (st.relationships.any fun q =>
      q.source_id == em (rget r "source_doc_identifier" "") (rget r "source_element_identifier" "") &&
      q.dest_id == em (rget r "dest_doc_identifier" "") (rget r "dest_element_identifier" "") &&
      q.prov_doc_id == dm (rget r "provenance_doc_identifier" "") &&
      q.relationship_type == tm (rget r "relationship_identifier" "")) = true) :
    (insertRelGo dm em tm st cnt diags rows).2.1 = st := by
  induction rows generalizing cnt diags with
  | nil => rfl
  | cons r rest ih =>
    rw [insertRelGo_cons_eq]
    split
    · exact ih _ _ (fun r2 hr2 => h r2 (List.mem_cons_of_mem _ hr2))
    · rw [relInsertOrIgnore_dup st _ _ _ _ _ (h r (List.mem_cons_self _ _))]
      exact ih _ _ (fun r2 hr2 => h r2 (List.mem_cons_of_mem _ hr2))

/-! Resolution of the identifier maps after the junk inserts of a
re-import. -/

theorem find?_unique_str {A : Type} (f : A → String) (p : A → Bool) (l : List A)
    (hp : l.Pairwise (fun a b => f a ≠ f b)) (a : A) (ha : a ∈ l)
    (hpa : p a = true) (hsel : ∀ x, p x = true → f x = f a) :
    l.find? p = some a := by
  have hsome : (l.find? p).isSome := List.find?_isSome.mpr ⟨a, ha, hpa⟩
  rcases Option.isSome_iff_exists.mp hsome with ⟨b, hb⟩
  have hmem := List.mem_of_find?_eq_some hb
  have hpb := List.find?_some hb
  rw [hb]
  rw [eq_of_pairwise_ne_str f l hp b a hmem ha (hsel b hpb)]

theorem pairwise_ne_reverse {A : Type} (f : A → String) (l : List A)
    (hp : l.Pairwise (fun a b => f a ≠ f b)) :
    l.reverse.Pairwise (fun a b => f a ≠ f b) :=
  List.pairwise_reverse.mpr (hp.imp Ne.symm)

/-- A nonzero `doc_id_map` lookup names a stored document with the looked-up
identifier. -/
theorem docIdMapN_spec (s : Store) (k : String) (h : docIdMapN s k ≠ 0) :
    ∃ d ∈ s.documents, d.doc_identifier = k ∧ d.document_id = docIdMapN s k := by
  unfold docIdMapN at *
  rcases hf : s.documents.reverse.find? (fun d => d.doc_identifier == k) with _ | d
  · rw [hf] at h
    exact absurd rfl h
  · rw [hf]
    refine ⟨d, List.mem_reverse.mp (List.mem_of_find?_eq_some hf), ?_, rfl⟩
    have := List.find?_some hf
    simpa using this

/-- `doc_id_map` resolves an identifier of an original document to that
document, junk documents (empty identifier) notwithstanding. -/
theorem docIdMapN_resolve (stX : Store) (origD extraD : List DocumentRec)
    (hD : stX.documents = origD ++ extraD)
    (hextraD : ∀ d ∈ extraD, d.doc_identifier = "")
    (hDuid : origD.Pairwise (fun a b => a.doc_identifier ≠ b.doc_identifier))
    (pd : DocumentRec) (hpd : pd ∈ origD) (hnz : pd.doc_identifier ≠ "") :
    docIdMapN stX pd.doc_identifier = pd.document_id := by
  unfold docIdMapN
  rw [hD, List.reverse_append, List.find?_append]
  have hnone : extraD.reverse.find? (fun d => d.doc_identifier == pd.doc_identifier) = none := by
    rw [List.find?_eq_none]
    intro d hd
    have h0 := hextraD d (List.mem_reverse.mp hd)
    simp [h0, Ne.symm hnz]
  rw [hnone]
  have hfind : origD.reverse.find? (fun d => d.doc_identifier == pd.doc_identifier) = some pd := by
    apply find?_unique_str (fun d => d.doc_identifier) _ _
      (pairwise_ne_reverse _ _ hDuid) pd (List.mem_reverse.mpr hpd) (by simp)
    intro x hx
    simpa using hx
  rw [hfind]
  rfl

/-- `rel_type_id_map` resolves a stored relationship-type identifier to its
row. -/
theorem relTypeIdMapN_resolve (stX : Store) (hs : stX.relationship_types.Pairwise
      (fun a b => a.relationship_identifier ≠ b.relationship_identifier))
    (rt : RelTypeRec) (hrt : rt ∈ stX.relationship_types) :
    relTypeIdMapN stX rt.relationship_identifier = rt.type_id := by
  unfold relTypeIdMapN
  have hfind : stX.relationship_types.reverse.find?
      (fun t => t.relationship_identifier == rt.relationship_identifier) = some rt := by
    apply find?_unique_str (fun t => t.relationship_identifier) _ _
      (pairwise_ne_reverse _ _ hs) rt (List.mem_reverse.mpr hrt) (by simp)
    intro x hx
    simpa using hx
  rw [hfind]

/-- `element_id_map` resolves the (document identifier, element identifier)
key of an original element to that elements surrogate id, provided the keys
are injective, the junk documents carry the empty identifier, and the junk
elements hang off junk documents only. -/
theorem elementIdMapN_resolve (stX : Store)
    (origE extraE : List ElementRec) (origD extraD : List DocumentRec)
    (hE : stX.elements = origE ++ extraE) (hD : stX.documents = origD ++ extraD)
    (hfk : ∀ e ∈ origE, ∃ d ∈ origD, d.document_id = e.document_id)
    (hids : ∀ e ∈ extraE, ∀ d ∈ origD, d.document_id ≠ e.document_id)
    (hDuid : origD.Pairwise (fun a b => a.document_id ≠ b.document_id))
    (hinj : ∀ e1 ∈ origE, ∀ e2 ∈ origE, ∀ d1 ∈ origD, ∀ d2 ∈ origD,
      d1.document_id = e1.document_id → d2.document_id = e2.document_id →
      d1.doc_identifier = d2.doc_identifier →
      e1.element_identifier = e2.element_identifier → e1.element_id = e2.element_id)
    (hextraD : ∀ d ∈ extraD, d.doc_identifier = "")
    (se : ElementRec) (sd : DocumentRec) (hse : se ∈ origE) (hsd : sd ∈ origD)
    (hmatch : sd.document_id = se.document_id) (hnz : sd.doc_identifier ≠ "") :
    elementIdMapN stX sd.doc_identifier se.element_identifier = se.element_id := by
  have hdocfind : ∀ e ∈ origE,
      stX.documents.find? (fun d => d.document_id == e.document_id) =
        origD.find? (fun d => d.document_id == e.document_id) := by
    intro e he
    rcases hfk e he with ⟨d, hd, hdid⟩
    rw [hD, List.find?_append]
    have hsome : (origD.find? (fun d => d.document_id == e.document_id)).isSome :=
      List.find?_isSome.mpr ⟨d, hd, by simp [hdid]⟩
    rcases Option.isSome_iff_exists.mp hsome with ⟨d2, hd2⟩
    rw [hd2]
    rfl
  have hjunkfind : ∀ e ∈ extraE,
      stX.documents.find? (fun d => d.document_id == e.document_id) =
        extraD.find? (fun d => d.document_id == e.document_id) := by
    intro e he
    rw [hD, List.find?_append]
    have hnone : origD.find? (fun d => d.document_id == e.document_id) = none := by
      rw [List.find?_eq_none]
      intro d hd
      simp [hids e he d hd]
    rw [hnone]
    rfl
  unfold elementIdMapN elemJoin
  rw [hE, List.filterMap_append, List.reverse_append, List.find?_append]
  have hjunknone : ((extraE.filterMap (fun e =>
      (stX.documents.find? (fun d => d.document_id == e.document_id)).map
        (fun d => (d.doc_identifier, e.element_identifier, e.element_id)))).reverse.find?
      (fun t => t.1 == sd.doc_identifier && t.2.1 == se.element_identifier)) = none := by
    rw [List.find?_eq_none]
    intro t ht
    rcases List.mem_filterMap.mp (List.mem_reverse.mp ht) with ⟨e, he, hf⟩
    rw [hjunkfind e he] at hf
    rcases Option.map_eq_some'.mp hf with ⟨d, hd, ht2⟩
    have hdid : d.doc_identifier = "" := hextraD d (List.mem_of_find?_eq_some hd)
    rw [← ht2]
    simp [hdid, Ne.symm hnz]
  rw [hjunknone]
  have hsd2 : ∀ e2 ∈ origE, ∀ t, ((stX.documents.find?
        (fun d => d.document_id == e2.document_id)).map
        (fun d => (d.doc_identifier, e2.element_identifier, e2.element_id))) = some t →
      ∃ d2 ∈ origD, d2.document_id = e2.document_id ∧
        t = (d2.doc_identifier, e2.element_identifier, e2.element_id) := by
    intro e2 he2 t hf
    rw [hdocfind e2 he2] at hf
    rcases Option.map_eq_some'.mp hf with ⟨d2, hd2, ht2⟩
    refine ⟨d2, List.mem_of_find?_eq_some hd2, ?_, ht2.symm⟩
    have := List.find?_some hd2
    simpa using this
  have hself : ((stX.documents.find? (fun d => d.document_id == se.document_id)).map
      (fun d => (d.doc_identifier, se.element_identifier, se.element_id))) =
      some (sd.doc_identifier, se.element_identifier, se.element_id) := by
    rw [hdocfind se hse]
    have hfind : origD.find? (fun d => d.document_id == se.document_id) = some sd := by
      have hsome : (origD.find? (fun d => d.document_id == se.document_id)).isSome :=
        List.find?_isSome.mpr ⟨sd, hsd, by simp [hmatch]⟩
      rcases Option.isSome_iff_exists.mp hsome with ⟨d2, hd2⟩
      rw [hd2]
      have hd2p : d2.document_id = se.document_id := by simpa using List.find?_some hd2
      rw [eq_of_pairwise_ne (fun d => d.document_id) origD hDuid d2 sd
        (List.mem_of_find?_eq_some hd2) hsd
        (by show d2.document_id = sd.document_id; rw [hd2p, hmatch])]
    rw [hfind]
    rfl
  have horigsome : (((origE.filterMap (fun e =>
      (stX.documents.find? (fun d => d.document_id == e.document_id)).map
        (fun d => (d.doc_identifier, e.element_identifier, e.element_id)))).reverse.find?
      (fun t => t.1 == sd.doc_identifier && t.2.1 == se.element_identifier))).isSome := by
    apply List.find?_isSome.mpr
    refine ⟨(sd.doc_identifier, se.element_identifier, se.element_id),
      List.mem_reverse.mpr (List.mem_filterMap.mpr ⟨se, hse, hself⟩), by simp⟩
  rcases Option.isSome_iff_exists.mp horigsome with ⟨t0, ht0⟩
  rw [ht0]
  have ht0mem := List.mem_filterMap.mp (List.mem_reverse.mp (List.mem_of_find?_eq_some ht0))
  rcases ht0mem with ⟨e2, he2, hf2⟩
  rcases hsd2 e2 he2 t0 hf2 with ⟨d2, hd2, hdid2, ht2⟩
  have hpred := List.find?_some ht0
  rw [ht2] at hpred
  simp only [Bool.and_eq_true, beq_iff_eq] at hpred
  have heid : e2.element_id = se.element_id := by
    exact hinj e2 he2 se hse d2 hd2 sd hsd hdid2 hmatch hpred.1 hpred.2
  rw [ht2]
  simpa using heid

theorem joinRel_spec (st : Store) (r : RelationshipRec) (er : ExportRow)
    (h : joinRel st r = some er) :
    ∃ se ∈ st.elements, ∃ sd ∈ st.documents, ∃ de ∈ st.elements, ∃ dd ∈ st.documents,
      ∃ pd ∈ st.documents, ∃ rt ∈ st.relationship_types,
      se.element_id = r.source_id ∧ sd.document_id = se.document_id ∧
      de.element_id = r.dest_id ∧ dd.document_id = de.document_id ∧
      pd.document_id = r.prov_doc_id ∧ rt.type_id = r.relationship_type ∧
      er = ⟨se.element_identifier, sd.doc_identifier, de.element_identifier,
        dd.doc_identifier, pd.doc_identifier, rt.relationship_identifier, r.comment,
        se.element_id, de.element_id⟩ := by
  unfold joinRel at h
  rcases Option.bind_eq_some.mp h with ⟨se, hse, h⟩
  rcases Option.bind_eq_some.mp h with ⟨sd, hsd, h⟩
  rcases Option.bind_eq_some.mp h with ⟨de, hde, h⟩
  rcases Option.bind_eq_some.mp h with ⟨dd, hdd, h⟩
  rcases Option.bind_eq_some.mp h with ⟨pd, hpd, h⟩
  rcases Option.map_eq_some'.mp h with ⟨rt, hrt, her⟩
  exact ⟨se, List.mem_of_find?_eq_some hse, sd, List.mem_of_find?_eq_some hsd,
    de, List.mem_of_find?_eq_some hde, dd, List.mem_of_find?_eq_some hdd,
    pd, List.mem_of_find?_eq_some hpd, rt, List.mem_of_find?_eq_some hrt,
    by simpa using List.find?_some hse, by simpa using List.find?_some hsd,
    by simpa using List.find?_some hde, by simpa using List.find?_some hdd,
    by simpa using List.find?_some hpd, by simpa using List.find?_some hrt,
    her.symm⟩

theorem exportFilteredRows_subset (st : Store) (P : List String) (er : ExportRow)
    (h : er ∈ exportFilteredRows st P) : er ∈ exportJoinRows st := by
  unfold exportFilteredRows at h
  split at h
  · exact h
  · exact (List.mem_filter.mp h).1

theorem bundle_doc_row_ident (st : Store) (P : List String) (row : Row)
    (h : row ∈ (exportBundle st P).documents) :
    rget row "document_identifier" "" = "" := by
  rcases List.mem_map.mp h with ⟨d, _, rfl⟩
  rfl

theorem bundle_elem_row_ident (st : Store) (P : List String) (row : Row)
    (h : row ∈ (exportBundle st P).elements) :
    rget row "document_identifier" "" = "" := by
  rcases List.mem_map.mp h with ⟨p, _, rfl⟩
  rfl

theorem bundle_type_row (st : Store) (P : List String) (row : Row)
    (h : row ∈ (exportBundle st P).relationship_types) :
    ∃ t ∈ st.relationship_types, row = typeRecToRow t := by
  rcases List.mem_map.mp h with ⟨t, ht, rfl⟩
  have ht2 := (mem_insSort _ t _).mp ht
  exact ⟨t, (List.mem_filter.mp ht2).1, rfl⟩

theorem bundle_rel_row (st : Store) (P : List String) (row : Row)
    (h : row ∈ (exportBundle st P).relationships) :
    ∃ r ∈ st.relationships, ∃ er, joinRel st r = some er ∧ row = relRecToRow er := by
  rcases List.mem_map.mp h with ⟨er, her, rfl⟩
  have h2 := (mem_insSort _ er _).mp her
  have h3 := exportFilteredRows_subset st P er h2
  rcases List.mem_filterMap.mp h3 with ⟨r, hr, hjoin⟩
  exact ⟨r, hr, er, hjoin, rfl⟩

theorem rget_relRow_sdoc (er : ExportRow) :
    rget (relRecToRow er) "source_doc_identifier" "" = er.source_doc_identifier := rfl
theorem rget_relRow_selem (er : ExportRow) :
    rget (relRecToRow er) "source_element_identifier" "" = er.source_element_identifier := rfl
theorem rget_relRow_ddoc (er : ExportRow) :
    rget (relRecToRow er) "dest_doc_identifier" "" = er.dest_doc_identifier := rfl
theorem rget_relRow_delem (er : ExportRow) :
    rget (relRecToRow er) "dest_element_identifier" "" = er.dest_element_identifier := rfl
theorem rget_relRow_pdoc (er : ExportRow) :
    rget (relRecToRow er) "provenance_doc_identifier" "" = er.provenance_doc_identifier := rfl
theorem rget_relRow_rtype (er : ExportRow) :
    rget (relRecToRow er) "relationship_identifier" "" = er.relationship_identifier := rfl
theorem rget_typeRow_ident (t : RelTypeRec) :
    rget (typeRecToRow t) "relationship_identifier" "" = t.relationship_identifier := rfl

/-- C2 (amended): on a well-formed store in which no two elements share
their (document identifier, element identifier) resolution key and no
document has the empty identifier, exporting the relationships filtered to
any provenance set and re-importing the exported four-sheet bundle through
the insert pipeline leaves the relationships table exactly as it was: every
re-imported relationship row resolves back to its original surrogate ids
and is silently ignored by the uniqueness constraint, so no tuple is
duplicated and none is lost.  (The documents and elements sheets do create
stray rows under a fresh empty-identifier document, because the exported
column `doc_identifier` is not the `document_identifier` the import reads —
but these never capture a resolution key used by the relationship rows.) -/
theorem export_reimport_preserves_relationships (st : Store) (P : List String)
    (hwf : WFStore st) (hinjst : ElemKeyInjective st) (hne : NoEmptyDocIdent st) :
    (runImportFile (exportBundle st P) st).store.relationships = st.relationships := by
  obtain ⟨hwfD, hwfDid, hwfDident, hwfE, hwfEid, hwfT, hwfTid, hwfTident, hwfEfk, hwfR⟩ := hwf
  obtain ⟨extraD, hD1, hD2, hD3, hD4, hD5, hD6, hD7, hD8⟩ :=
    insertDocuments_spec st (exportBundle st P).documents
  obtain ⟨extraE, hE1, hE2, hE3, hE4, hE5, hE6, hE7, hE8⟩ :=
    insElemFold_spec (docIdMapN (insertDocuments st (exportBundle st P).documents).2)
      (exportBundle st P).elements (insertDocuments st (exportBundle st P).documents).2
  have hextraD : ∀ d ∈ extraD, d.doc_identifier = "" := by
    intro d hd
    rcases List.mem_map.mp (hD3 d hd).2 with ⟨row, hrow, heq⟩
    rw [← heq]
    exact bundle_doc_row_ident st P row hrow
  -- Naming the two intermediate stores.
  set st1 := (insertDocuments st (exportBundle st P).documents).2 with hst1
  set st2 := ((exportBundle st P).elements.foldl (insElemStep (docIdMapN st1)) (0, st1)).2
    with hst2
  have hst2e : (insertElements st1 (exportBundle st P).elements).2 = st2 := rfl
  -- Facts about st2.
  have h2docs : st2.documents = st.documents ++ extraD := by rw [hE4, hD1]
  have h2elems : st2.elements = st.elements ++ extraE := by rw [hE1, hD4]
  have h2types : st2.relationship_types = st.relationship_types := by rw [hE5, hD5]
  have h2rels : st2.relationships = st.relationships := by rw [hE6, hD6]
  -- Junk elements hang off junk documents only.
  have hids : ∀ e ∈ extraE, ∀ d ∈ st.documents, d.document_id ≠ e.document_id := by
    intro e he d hd
    rcases hE3 e he with ⟨_, row, hrow, hdoc, hnz⟩
    rw [bundle_elem_row_ident st P row hrow] at hdoc hnz
    rcases docIdMapN_spec st1 "" hnz with ⟨df, hdf, hdfid, hdfval⟩
    rw [hD1] at hdf
    rcases List.mem_append.mp hdf with hdf2 | hdf2
    · exact absurd hdfid (hne df hdf2)
    · have hge : st.nextDocId ≤ df.document_id := (hD3 df hdf2).1
      have hlt : d.document_id < st.nextDocId := (hwfD d hd).2
      rw [hdoc, ← hdfval]
      omega
  -- The types sheet re-insert is a no-op.
  have hT : (insertRelationshipTypes st2 (exportBundle st P).relationship_types).2 = st2 := by
    apply insertRelationshipTypes_noop
    intro row hrow
    rcases bundle_type_row st P row hrow with ⟨t, ht, rfl⟩
    rw [rget_typeRow_ident]
    apply List.any_eq_true.mpr
    exact ⟨t, by rw [h2types]; exact ht, by simp⟩
  -- Every re-imported relationship row resolves to an existing tuple.
  have hpresent : ∀ row ∈ (exportBundle st P).relationships,
      (st2.relationships.any fun q =>
        q.source_id == elementIdMapN st2 (rget row "source_doc_identifier" "")
          (rget row "source_element_identifier" "") &&
        q.dest_id == elementIdMapN st2 (rget row "dest_doc_identifier" "")
          (rget row "dest_element_identifier" "") &&
        q.prov_doc_id == docIdMapN st2 (rget row "provenance_doc_identifier" "") &&
        q.relationship_type == relTypeIdMapN st2
          (rget row "relationship_identifier" "")) = true := by
    intro row hrow
    rcases bundle_rel_row st P row hrow with ⟨r, hr, er, hjoin, rfl⟩
    rcases joinRel_spec st r er hjoin with ⟨se, hsem, sd, hsdm, de, hdem, dd, hddm,
      pd, hpdm, rt, hrtm, h1, h2, h3, h4, h5, h6, her⟩
    have hem_s : elementIdMapN st2 sd.doc_identifier se.element_identifier = se.element_id :=
      elementIdMapN_resolve st2 st.elements extraE st.documents extraD h2elems h2docs
        hwfEfk hids hwfDid hinjst hextraD se sd hsem hsdm h2 (hne sd hsdm)
    have hem_d : elementIdMapN st2 dd.doc_identifier de.element_identifier = de.element_id :=
      elementIdMapN_resolve st2 st.elements extraE st.documents extraD h2elems h2docs
        hwfEfk hids hwfDid hinjst hextraD de dd hdem hddm h4 (hne dd hddm)
    have hdm_p : docIdMapN st2 pd.doc_identifier = pd.document_id :=
      docIdMapN_resolve st2 st.documents extraD h2docs hextraD hwfDident pd hpdm
        (hne pd hpdm)
    have htm_t : relTypeIdMapN st2 rt.relationship_identifier = rt.type_id := by
      apply relTypeIdMapN_resolve st2
      · rw [h2types]; exact hwfTident
      · rw [h2types]; exact hrtm
    apply List.any_eq_true.mpr
    refine ⟨r, by rw [h2rels]; exact hr, ?_⟩
    rw [rget_relRow_sdoc, rget_relRow_selem, rget_relRow_ddoc, rget_relRow_delem,
      rget_relRow_pdoc, rget_relRow_rtype, her]
    show (r.source_id == elementIdMapN st2 sd.doc_identifier se.element_identifier &&
      r.dest_id == elementIdMapN st2 dd.doc_identifier de.element_identifier &&
      r.prov_doc_id == docIdMapN st2 pd.doc_identifier &&
      r.relationship_type == relTypeIdMapN st2 rt.relationship_identifier) = true
    rw [hem_s, hem_d, hdm_p, htm_t, h1, h3, h5, h6]
    simp
  -- Assemble.
  have hgoal : (runImportFile (exportBundle st P) st).store =
      (insertRelationships (insertRelationshipTypes st2
        (exportBundle st P).relationship_types).2 (exportBundle st P).relationships).2.1 := rfl
  rw [hgoal, hT]
  have hconst : (insertRelationships st2 (exportBundle st P).relationships).2.1 = st2 :=
    insertRelGo_store_const (docIdMapN st2) (elementIdMapN st2) (relTypeIdMapN st2)
      st2 0 [] _ hpresent
  rw [hconst, h2rels]

/-- A schema-valid store in which two elements of document D1 share the
element identifier `e1` but differ in title/text — permitted, because the
elements UNIQUE constraint covers (document, identifier, title, text). -/
def c2Store : Store :=
  ⟨[⟨1, "D1", "Doc", "1.0", "", "standard"⟩],
   [⟨1, 1, "control", "e1", "T1", "x1"⟩, ⟨2, 1, "control", "e1", "T2", "x2"⟩],
   [⟨1, "rt", "", ""⟩],
   [⟨1, 1, 1, 1, "c"⟩], 2, 3, 2⟩

/-- C2 counterexample: the round trip is not the identity on this
well-formed store.  The single relationship exports under the key
(D1, e1), but on re-import the `element_id_map` dict is built with
last-assignment-wins semantics, so (D1, e1) resolves to element 2 instead
of element 1; the insert of (2, 2, 1, 1) is not a duplicate and a new
relationship tuple appears: the store ends with two tuples where it had
one. -/
theorem roundtrip_duplicate_element_key_counterexample :
    WFStore c2Store ∧
    c2Store.relationships.length = 1 ∧
    (runImportFile (exportBundle c2Store ["D1"]) c2Store).store.relationships.length = 2 ∧
    (runImportFile (exportBundle c2Store ["D1"]) c2Store).store.relationships ≠
      c2Store.relationships := by
  refine ⟨by decide, by decide, by decide, by decide⟩

/-- A store with unambiguous element keys: D1 owns E1 and E2, P is a
provenance-only mapping document, one relationship E1 → E2 under P. -/
def c2WStore : Store :=
  ⟨[⟨1, "D1", "Doc", "1.0", "", "standard"⟩,
    ⟨2, "P", "Mapping P", "1.0", "", "mapping_document"⟩],
   [⟨1, 1, "control", "E1", "T1", "x1"⟩, ⟨2, 1, "control", "E2", "T2", "x2"⟩],
   [⟨1, "related_to", "", ""⟩],
   [⟨1, 2, 2, 1, ""⟩], 3, 3, 2⟩

/-- Witness for C2: the round trip leaves the concrete store's
relationships unchanged. -/
theorem export_reimport_preserves_relationships_witness :
    (runImportFile (exportBundle c2WStore ["P"]) c2WStore).store.relationships =
      c2WStore.relationships :=
  export_reimport_preserves_relationships c2WStore ["P"] (by decide) (by decide) (by decide)
